import Mathlib

set_option maxHeartbeats 1000000

/-!
Verification development for the multibg-wayland wallpaper resource engine.

The definitions below are a shallow embedding of the relevant parts of the
source tree: `src/wayland.rs` (output/surface manager, wallpaper cache and
draw dispatch), `src/gpu/device.rs` (physical device scoring and selection)
and `src/gpu/memory.rs` (upload session creation and modifier filtering).
Each definition's doc comment names the source item it embeds.  External
effects (Vulkan driver replies, directory listings, decode results) are
passed in explicitly as environment records.
-/

/-! ## Scaling decision (new_output / update_output, src/wayland.rs) -/

/-- Scaling strategy chosen for an output surface. -/
inductive ScalingDecisionT
  | noScaling
  | integerScale (s : Int)
  | fractionalScale (lw lh : Int)
deriving DecidableEq, Repr

/-- Scaling decision as implemented in `new_output` (src/wayland.rs:537-549)
and `update_output` (src/wayland.rs:692-714).  The first branch tests
`width == logical_width || height == logical_height`: a disjunction. -/
def chooseScaling (w h lw lh s : Int) : ScalingDecisionT :=
  if w = lw ∨ h = lh then .noScaling
  else if w = lw * s ∧ h = lh * s then .integerScale s
  else .fractionalScale lw lh

/-- Scaling decision table exactly as the specification words it:
pixel size equal to logical size (both components) means no scaling. -/
def specScalingTable (w h lw lh s : Int) : ScalingDecisionT :=
  if w = lw ∧ h = lh then .noScaling
  else if w = lw * s ∧ h = lh * s then .integerScale s
  else .fractionalScale lw lh

/-- Amended decision table: no scaling is chosen when the pixel width equals
the logical width or the pixel height equals the logical height. -/
def amendedScalingTable (w h lw lh s : Int) : ScalingDecisionT :=
  if w = lw ∨ h = lh then .noScaling
  else if w = lw * s ∧ h = lh * s then .integerScale s
  else .fractionalScale lw lh

/-! ## Physical device scoring (src/gpu/device.rs) -/

/-- Vulkan physical device classes relevant to scoring. -/
inductive PhysicalDeviceTypeT
  | discreteGpu
  | integratedGpu
  | virtualGpu
  | cpu
  | otherDevice
deriving DecidableEq, Repr, Inhabited

/-- The probed facts about one physical device that determine its score
(`physdev_info`, src/gpu/device.rs:118-205).  `primaryDev` and `renderDev`
are the DRM device numbers reported when `has_drm_props` holds. -/
structure PhysdevPropsT where
  devType : PhysicalDeviceTypeT
  hasDrmProps : Bool
  primaryDev : Option Nat
  renderDev : Option Nat
deriving DecidableEq, Repr, Inhabited

/-- Weight bit from src/gpu/device.rs:62. -/
def SCORE_MATCHES_DRM_DEV : Nat := 1 <<< 3

/-- Weight bit from src/gpu/device.rs:63. -/
def SCORE_DISCRETE_GPU : Nat := 1 <<< 2

/-- Weight bit from src/gpu/device.rs:64. -/
def SCORE_INTEGRATED_GPU : Nat := 1 <<< 1

/-- Weight bit from src/gpu/device.rs:65. -/
def SCORE_VIRTUAL_GPU : Nat := 1 <<< 0

/-- Score computation of `physdev_info` (src/gpu/device.rs:153-195): the
device-type bit is OR-ed in first, then, when DRM properties are available
and the display server reported a DMA-BUF device equal to the primary or
render node, the match bit is OR-ed in. -/
def physdevScore (dmabufDev : Option Nat) (p : PhysdevPropsT) : Nat :=
  let score : Nat :=
    match p.devType with
    | .discreteGpu => Nat.lor 0 SCORE_DISCRETE_GPU
    | .integratedGpu => Nat.lor 0 SCORE_INTEGRATED_GPU
    | .virtualGpu => Nat.lor 0 SCORE_VIRTUAL_GPU
    | _ => 0
  if p.hasDrmProps then
    if dmabufDev.isSome && (dmabufDev == p.primaryDev || dmabufDev == p.renderDev) then
      Nat.lor score SCORE_MATCHES_DRM_DEV
    else score
  else score

/-- Whether the device's primary or render DRM node matches the display
server's reported device (the guard of the match bit in `physdev_info`). -/
def matchesReportedNode (dmabufDev : Option Nat) (p : PhysdevPropsT) : Bool :=
  p.hasDrmProps && (dmabufDev.isSome && (dmabufDev == p.primaryDev || dmabufDev == p.renderDev))

/-- Maximum score over the probed devices (`device`, src/gpu/device.rs:83-87:
sort descending by score, read the first score). -/
def maxPhysdevScore (dmabufDev : Option Nat) (infos : List PhysdevPropsT) : Nat :=
  (infos.map (physdevScore dmabufDev)).foldl Nat.max 0

/-- The candidate set retained by `device` (src/gpu/device.rs:87): exactly
the probed devices whose score equals the maximum score. -/
def deviceCandidates (dmabufDev : Option Nat) (infos : List PhysdevPropsT) : List PhysdevPropsT :=
  infos.filter (fun p => physdevScore dmabufDev p == maxPhysdevScore dmabufDev infos)

/-- Device score as the specification words it: bitwise OR of weight 8 for a
node match, 4 for discrete, 2 for integrated, 1 for virtual. -/
def specDeviceScore (matchesNode discrete integrated virtualDev : Bool) : Nat :=
  Nat.lor
    (Nat.lor
      (Nat.lor (if matchesNode then 8 else 0) (if discrete then 4 else 0))
      (if integrated then 2 else 0))
    (if virtualDev then 1 else 0)

/-! ## GPU upload session creation (src/gpu/memory.rs, src/gpu.rs) -/

/-- fourcc_code from src/gpu.rs:272-274. -/
def fourccCode (a b c d : Nat) : Nat :=
  Nat.lor (Nat.lor (Nat.lor a (b <<< 8)) (c <<< 16)) (d <<< 24)

/-- DRM_FORMAT_XRGB8888 from src/gpu.rs:281 (fourcc of X, R, 2, 4). -/
def DRM_FORMAT_XRGB8888 : Nat := fourccCode 88 82 50 52

/-- fourcc_mod_code from src/gpu.rs:276-278. -/
def fourccModCode (vendor val : Nat) : Nat :=
  Nat.lor (vendor <<< 56) (Nat.land val 0x00ffffffffffffff)

/-- DRM_FORMAT_MOD_LINEAR from src/gpu.rs:291-294. -/
def DRM_FORMAT_MOD_LINEAR : Nat := fourccModCode 0 0

/-- The image format limits the driver reports for one modifier
(`image_format_properties` in `filter_modifier`). -/
structure ImageFormatLimitsT where
  maxExtentWidth : Nat
  maxExtentHeight : Nat
  maxExtentDepth : Nat
  maxMipLevels : Nat
  maxArrayLayers : Nat
  sampleCount1 : Bool
  maxResourceSize : Nat
deriving Repr

/-- One entry of the device's DRM format modifier properties list. -/
structure DrmFormatModPropsT where
  drmFormatModifier : Nat
  transferDst : Bool
  planeCount : Nat
deriving Repr, DecidableEq

/-- Driver-side replies consumed while creating an upload session
(`uploader`, src/gpu/memory.rs): the modifier properties list (absent when
EXT_image_drm_format_modifier is unavailable), the per-modifier image
format limits (absent when the query itself errors), and the memory
requirement size the driver reports for a staging buffer of a given
create size. -/
structure UploaderEnvT where
  drmFormatProps : Option (List DrmFormatModPropsT)
  imageFormatLimits : Nat → Option ImageFormatLimitsT
  bufferMemReqSize : Nat → Nat

/-- filter_modifier from src/gpu/memory.rs:159-218.  True exactly when the
source function returns Ok.  The height bound is compared against
`max_extent.width`, exactly as in the source (src/gpu/memory.rs:203). -/
def filterModifier (env : UploaderEnvT) (props : List DrmFormatModPropsT)
    (w h size m : Nat) : Bool :=
  match props.find? (fun fp => fp.drmFormatModifier == m) with
  | none => false
  | some fp =>
    if !fp.transferDst then false
    else
      match env.imageFormatLimits m with
      | none => false
      | some lim =>
        if lim.maxExtentDepth < 1 || lim.maxMipLevels < 1 || lim.maxArrayLayers < 1
            || !lim.sampleCount1 then false
        else
          let maxWidth := lim.maxExtentWidth
          let maxHeight := lim.maxExtentWidth
          if w > maxWidth then false
          else if h > maxHeight then false
          else if size > lim.maxResourceSize then false
          else true

/-- The modifier filtering loop of `uploader` (src/gpu/memory.rs:86-101).
Each candidate in turn is tested with `filter_modifier` and pushed on
success; after every candidate the accumulated list is tested for
emptiness and the whole call fails if it is empty at that point. -/
def uploaderFilterLoop (env : UploaderEnvT) (props : List DrmFormatModPropsT)
    (w h size : Nat) : List Nat → List Nat → Option (List Nat)
  | acc, [] => some acc
  | acc, m :: rest =>
    let acc2 := if filterModifier env props w h size m then acc ++ [m] else acc
    if acc2.isEmpty then none
    else uploaderFilterLoop env props w h size acc2 rest

/-- The modifier selection stage of `uploader` (src/gpu/memory.rs:85-107):
with modifier support the filtering loop runs over the candidates; without
it the retained list stays empty and the call succeeds only when
DRM_FORMAT_MOD_LINEAR was proposed. -/
def uploaderModifiers (env : UploaderEnvT) (w h : Nat) (candidates : List Nat) :
    Option (List Nat) :=
  let size := w * h * 4
  match env.drmFormatProps with
  | some props => uploaderFilterLoop env props w h size [] candidates
  | none => if candidates.contains DRM_FORMAT_MOD_LINEAR then some [] else none

/-- Staging buffer create size in `uploader` (src/gpu/memory.rs:85):
`width as DeviceSize * height as DeviceSize * 4`. -/
def stagingBufferCreateSize (w h : Nat) : Nat := w * h * 4

/-- Length of the slice exposed by `GpuUploader::staging_buffer`
(src/gpu.rs:206-208): the `len` field is set from the driver-reported
buffer memory requirement size (src/gpu/memory.rs:152), not from the
create size. -/
def uploaderStagingLen (env : UploaderEnvT) (w h : Nat) : Nat :=
  env.bufferMemReqSize (stagingBufferCreateSize w h)

/-! ## Wayland-side state model (src/wayland.rs) -/

/-- Output transform (wl_output::Transform). -/
inductive TransformT
  | normal
  | rot90
  | rot180
  | rot270
  | flipped
  | flipped90
  | flipped180
  | flipped270
deriving DecidableEq, Repr, Inhabited

/-- The DRM device numbers held by a GpuDevice (src/gpu.rs:144-146). -/
structure GpuDeviceT where
  primaryDrmDev : Option Nat
  renderDrmDev : Option Nat
  dmabufDrmDev : Option Nat
deriving DecidableEq, Repr, Inhabited

/-- GpuDevice::dmabuf_drm_dev_eq (src/gpu.rs:171-181), comparison branch. -/
def GpuDeviceT.dmabufDrmDevEq (g : GpuDeviceT) (drmDev : Option Nat) : Bool :=
  match drmDev with
  | some _ => drmDev == g.dmabufDrmDev || drmDev == g.renderDrmDev
      || drmDev == g.primaryDrmDev
  | none => true

/-- The parts of GpuUploader (src/gpu.rs:184-192) that the wallpaper cache
compares against: the owning device and the accepted modifier list. -/
structure GpuUploaderT where
  gpuDevice : GpuDeviceT
  drmFormatModifiers : List Nat
deriving DecidableEq, Repr, Inhabited

/-- Backing memory of a Wallpaper (enum Memory, src/wayland.rs:177-180).
The dmabuf variant records the GpuMemory's owning device and realized
modifier (src/gpu.rs:229-235) plus the pending buffer params object id. -/
inductive MemoryT
  | wlShm (poolSize : Nat)
  | dmabuf (gpuDevice : GpuDeviceT) (drmFormatModifier : Nat) (params : Option Nat)
deriving DecidableEq, Repr, Inhabited

/-- True exactly when the memory is a wl_shm pool. -/
def MemoryT.isShm : MemoryT → Bool
  | .wlShm _ => true
  | .dmabuf _ _ _ => false

/-- Memory::gpu_uploader_eq (src/wayland.rs:183-197) combined with
GpuMemory::gpu_uploader_eq and dmabuf_feedback_eq (src/gpu.rs:247-261). -/
def MemoryT.gpuUploaderEq (mem : MemoryT) (up : Option GpuUploaderT) : Bool :=
  match up with
  | some u =>
    match mem with
    | .wlShm _ => false
    | .dmabuf dev m _ =>
      dev.dmabufDrmDevEq u.gpuDevice.dmabufDrmDev && u.drmFormatModifiers.contains m
  | none =>
    match mem with
    | .wlShm _ => true
    | .dmabuf _ _ _ => false

/-- GpuMemory::dmabuf_feedback_eq (src/gpu.rs:254-261). -/
def MemoryT.dmabufFeedbackEq (mem : MemoryT) (dmabufDrmDev : Option Nat)
    (drmFormatModifiers : List Nat) : Bool :=
  match mem with
  | .wlShm _ => false
  | .dmabuf dev m _ => dev.dmabufDrmDevEq dmabufDrmDev && drmFormatModifiers.contains m

/-- Whether the memory is a dmabuf whose pending params object is `p`
(the test half of Memory::dmabuf_params_destroy_eq, src/wayland.rs:199-213). -/
def MemoryT.paramsMatch (mem : MemoryT) (p : Nat) : Bool :=
  match mem with
  | .dmabuf _ _ (some q) => q == p
  | _ => false

/-- The mutation half of Memory::dmabuf_params_destroy_eq: the matched
params object is destroyed and the stored option cleared. -/
def MemoryT.clearParams : MemoryT → MemoryT
  | .dmabuf dev m _ => .dmabuf dev m none
  | m => m

/-- A Wallpaper (src/wayland.rs:157-163): optional realized wl_buffer (as a
protocol object id), backing memory, and the dedup identity fields. -/
structure WallpaperT where
  wlBuffer : Option Nat
  memory : MemoryT
  canonPath : String
  canonModified : Nat
deriving DecidableEq, Repr, Inhabited

/-- A WorkspaceBackground (src/wayland.rs:151-155).  The shared
`Rc<RefCell<Wallpaper>>` is modelled as an id into the wallpaper store;
two bindings share one Wallpaper instance exactly when their ids agree. -/
structure WorkspaceBackgroundT where
  workspaceName : String
  workspaceNumber : Int
  wallpaper : Nat
deriving DecidableEq, Repr, Inhabited

/-- A BackgroundLayer (src/wayland.rs:62-74).  Protocol objects are ids;
`width`/`height` are the positive transform-adjusted pixel sizes. -/
structure BackgroundLayerT where
  outputName : String
  width : Nat
  height : Nat
  configured : Bool
  workspaceBackgrounds : List WorkspaceBackgroundT
  currentWallpaper : Option Nat
  queuedWallpaper : Option Nat
  transform : TransformT
  viewport : Bool
  dmabufFeedback : Option Nat
deriving DecidableEq, Repr, Inhabited

/-- The heap of shared wallpapers: an association list from id to
Wallpaper plus fresh-id counters (`nextId` for wallpapers, `nextObj` for
protocol objects such as buffer params and wl_buffers). -/
structure WStore where
  wallpapers : List (Nat × WallpaperT)
  nextId : Nat
  nextObj : Nat
deriving DecidableEq, Repr, Inhabited

/-- Dereference a wallpaper id (an `Rc` clone / borrow in the source). -/
def WStore.find (s : WStore) (id : Nat) : Option WallpaperT :=
  (s.wallpapers.find? (fun q => q.1 == id)).map (fun q => q.2)

/-- Allocate a fresh shared wallpaper (`Rc::new` in the source). -/
def WStore.alloc (s : WStore) (w : WallpaperT) : Nat × WStore :=
  (s.nextId, ⟨s.wallpapers ++ [(s.nextId, w)], s.nextId + 1, s.nextObj⟩)

/-- Allocate a fresh protocol object id. -/
def WStore.allocObj (s : WStore) : Nat × WStore :=
  (s.nextObj, ⟨s.wallpapers, s.nextId, s.nextObj + 1⟩)

/-- Mutate the wallpaper behind an id (`RefCell::borrow_mut`). -/
def WStore.modify (s : WStore) (id : Nat) (f : WallpaperT → WallpaperT) : WStore :=
  ⟨s.wallpapers.map (fun q => if q.1 == id then (q.1, f q.2) else q), s.nextId, s.nextObj⟩

/-- All wallpaper ids in the store are below the fresh-id counter. -/
def WStore.WF (s : WStore) : Prop :=
  ∀ q ∈ s.wallpapers, q.1 < s.nextId

/-- The single-threaded program state the claims range over: the wallpaper
heap and the per-output background layers (State::background_layers). -/
structure SysStateT where
  store : WStore
  layers : List BackgroundLayerT
deriving DecidableEq, Repr, Inhabited

/-- Observable surface operations issued by draw_workspace_bg. -/
inductive ActionT
  | attach (buffer : Nat)
  | damage (w h : Nat)
  | commit
  | errorLog
deriving DecidableEq, Repr

/-- The wallpaper resolution chain of draw_workspace_bg
(src/wayland.rs:95-102): first match by exact workspace name, else by
workspace number, else by the reserved name "_default". -/
def resolveWorkspaceBg (wbs : List WorkspaceBackgroundT) (name : String) (num : Int) :
    Option WorkspaceBackgroundT :=
  (wbs.find? (fun bg => bg.workspaceName == name)).orElse fun _ =>
    (wbs.find? (fun bg => bg.workspaceNumber == num)).orElse fun _ =>
      wbs.find? (fun bg => bg.workspaceName == "_default")

/-- BackgroundLayer::draw_workspace_bg (src/wayland.rs:88-148).  Returns the
updated layer and the list of surface operations performed. -/
def drawWorkspaceBg (store : WStore) (layer : BackgroundLayerT)
    (name : String) (num : Int) : BackgroundLayerT × List ActionT :=
  if !layer.configured then (layer, [.errorLog])
  else
    match resolveWorkspaceBg layer.workspaceBackgrounds name num with
    | none => (layer, [.errorLog])
    | some bg =>
      if layer.currentWallpaper == some bg.wallpaper then (layer, [])
      else
        match store.find bg.wallpaper with
        | none => (layer, [])
        | some wp =>
          match wp.wlBuffer with
          | none => ({ layer with queuedWallpaper := some bg.wallpaper }, [])
          | some buf =>
            ({ layer with
                currentWallpaper := some bg.wallpaper,
                queuedWallpaper := none },
              [.attach buf, .damage layer.width layer.height, .commit])

/-- First workspace background of a layer whose wallpaper's dmabuf params
object is `p` (the inner search of `created`, src/wayland.rs:303-307). -/
def findParamsMatch (store : WStore) (wbs : List WorkspaceBackgroundT) (p : Nat) :
    Option WorkspaceBackgroundT :=
  wbs.find? (fun e =>
    match store.find e.wallpaper with
    | some wp => wp.memory.paramsMatch p
    | none => false)

/-- The layer walk of `created` (src/wayland.rs:296-326): the first layer
holding a binding whose wallpaper's params object matches gets the buffer
stored into that shared wallpaper; then, if that layer's queued wallpaper
upgrades to the same shared instance, draw_workspace_bg runs for the found
binding's workspace, and the walk returns early. -/
def createdGo (store : WStore) (p b : Nat) :
    List BackgroundLayerT → WStore × List BackgroundLayerT
  | [] => (store, [])
  | layer :: rest =>
    match findParamsMatch store layer.workspaceBackgrounds p with
    | some e =>
      let store2 := store.modify e.wallpaper fun wp =>
        { wp with memory := wp.memory.clearParams, wlBuffer := some b }
      let layer2 :=
        match layer.queuedWallpaper with
        | some q =>
          if (store2.find q).isSome && q == e.wallpaper then
            (drawWorkspaceBg store2 layer e.workspaceName e.workspaceNumber).1
          else layer
        | none => layer
      (store2, layer2 :: rest)
    | none =>
      let r := createdGo store p b rest
      (r.1, layer :: r.2)

/-- DmabufHandler::created (src/wayland.rs:296-326) on the whole state. -/
def created (st : SysStateT) (p b : Nat) : SysStateT :=
  let r := createdGo st.store p b st.layers
  ⟨r.1, r.2⟩

/-! ## Wallpaper loading (load_wallpapers, src/wayland.rs:949-1142) -/

/-- MAX_FDS_OUT from src/wayland.rs:60. -/
def MAX_FDS_OUT : Nat := 28

/-- One wallpaper file found by output_wallpaper_files (src/image.rs:25-30). -/
structure WallpaperFileT where
  path : String
  workspace : String
  workspaceNumber : Int
  canonPath : String
  canonModified : Nat
deriving DecidableEq, Repr, Inhabited

/-- The result of GpuUploader::upload relevant here (src/gpu.rs:215-221):
the realized modifier and the number of memory planes (hence exported
file descriptors queued for this buffer). -/
structure GpuWallpaperT where
  modifier : Nat
  planesLen : Nat
deriving DecidableEq, Repr, Inhabited

/-- Negotiated wl_shm pixel format (State::shm_format, src/main.rs:69-80). -/
inductive ShmFormatT
  | xrgb8888
  | bgr888
deriving DecidableEq, Repr, Inhabited

/-- Stride for the shm buffer (src/wayland.rs:973-985): width*4 for
Xrgb8888; width*3 aligned up to 12 for Bgr888. -/
def shmStride (fmt : ShmFormatT) (w : Nat) : Nat :=
  match fmt with
  | .xrgb8888 => w * 4
  | .bgr888 => ((w * 3 + 11) / 12) * 12

/-- Events observable on the display-server connection during a load:
flushes, batches of queued file descriptors, and decode operations (the
decode event carries the wallpaper's dedup identity and backend). -/
inductive EventT
  | flush
  | queueFds (n : Nat)
  | decode (canonPath : String) (canonModified : Nat) (gpu : Bool)
deriving DecidableEq, Repr

/-- External effects consumed by load_wallpapers and the feedback handler:
the directory listing, the per-file decode results for the two backends,
shm pool creation, GPU upload results, the negotiated shm format, and
Gpu::uploader outcomes (keyed by device, size and candidate modifiers). -/
structure EnvT where
  files : List WallpaperFileT
  decodeGpuOk : WallpaperFileT → Bool
  decodeShmOk : WallpaperFileT → Bool
  shmPoolOk : WallpaperFileT → Bool
  uploadResult : WallpaperFileT → Option GpuWallpaperT
  shmFormat : ShmFormatT
  mkUploader : Option Nat → Nat → Nat → List Nat → Option GpuUploaderT

/-- The per-wallpaper match test shared by find_equal_wallpaper and
find_equal_output_wallpaper (src/wayland.rs:871-875 and 892-895). -/
def wallpaperMatches (s : WStore) (canonPath : String) (canonModified : Nat)
    (up : Option GpuUploaderT) (wid : Nat) : Bool :=
  match s.find wid with
  | some wp =>
    wp.canonModified == canonModified && wp.canonPath == canonPath
      && wp.memory.gpuUploaderEq up
  | none => false

/-- find_equal_output_wallpaper (src/wayland.rs:886-903): search the
bindings accumulated so far for this output. -/
def findEqualOutputWallpaper (s : WStore) (acc : List WorkspaceBackgroundT)
    (canonPath : String) (canonModified : Nat) (up : Option GpuUploaderT) :
    Option Nat :=
  (acc.find? (fun e => wallpaperMatches s canonPath canonModified up e.wallpaper)).map
    (fun e => e.wallpaper)

/-- find_equal_wallpaper (src/wayland.rs:857-884): search every layer with
the same width, height and transform for a matching binding. -/
def findEqualWallpaper (s : WStore) (layers : List BackgroundLayerT)
    (w h : Nat) (t : TransformT) (canonPath : String) (canonModified : Nat)
    (up : Option GpuUploaderT) : Option Nat :=
  layers.findSome? fun bl =>
    if bl.width == w && bl.height == h && decide (bl.transform = t) then
      (bl.workspaceBackgrounds.find?
        (fun e => wallpaperMatches s canonPath canonModified up e.wallpaper)).map
        (fun e => e.wallpaper)
    else none

/-- Intermediate state of the load_wallpapers loop. -/
structure RunSt where
  store : WStore
  acc : List WorkspaceBackgroundT
  uploader : Option GpuUploaderT
  fdsNeedFlush : Nat
  trace : List EventT

/-- The wl_shm fallback tail of one load_wallpapers iteration
(src/wayland.rs:1081-1128): flush when one more descriptor would pass the
bound, count the descriptor, create the pool, decode into it, create the
wl_buffer and push the binding. -/
def loadStepShm (env : EnvT) (shmSizeV : Nat) (rs : RunSt) (f : WallpaperFileT) : RunSt :=
  let rs1 :=
    if rs.fdsNeedFlush + 1 > MAX_FDS_OUT then
      { rs with trace := rs.trace ++ [.flush], fdsNeedFlush := 0 }
    else rs
  let rs2 := { rs1 with fdsNeedFlush := rs1.fdsNeedFlush + 1 }
  if !env.shmPoolOk f then rs2
  else
    let rs3 := { rs2 with
      trace := rs2.trace ++ [.queueFds 1, .decode f.canonPath f.canonModified false] }
    if !env.decodeShmOk f then rs3
    else
      let ob := rs3.store.allocObj
      let wp : WallpaperT :=
        ⟨some ob.1, .wlShm shmSizeV, f.canonPath, f.canonModified⟩
      let al := ob.2.alloc wp
      { rs3 with
          store := al.2,
          acc := rs3.acc ++ [⟨f.workspace, f.workspaceNumber, al.1⟩] }

/-- One iteration of the load_wallpapers file loop (src/wayland.rs:994-1129):
reuse from this output's accumulated bindings, else from any other layer
with equal geometry, else decode; with a live uploader decode into the
staging buffer and upload (queueing the exported plane descriptors under
the MAX_FDS_OUT bound), falling back to wl_shm for this and later files
when the upload fails. -/
def loadStep (env : EnvT) (layers0 : List BackgroundLayerT) (w h : Nat)
    (t : TransformT) (shmSizeV : Nat) (rs : RunSt) (f : WallpaperFileT) : RunSt :=
  match findEqualOutputWallpaper rs.store rs.acc f.canonPath f.canonModified rs.uploader with
  | some wid =>
    { rs with acc := rs.acc ++ [⟨f.workspace, f.workspaceNumber, wid⟩] }
  | none =>
    match findEqualWallpaper rs.store layers0 w h t f.canonPath f.canonModified rs.uploader with
    | some wid =>
      { rs with acc := rs.acc ++ [⟨f.workspace, f.workspaceNumber, wid⟩] }
    | none =>
      match rs.uploader with
      | some u =>
        let rs1 := { rs with
          trace := rs.trace ++ [.decode f.canonPath f.canonModified true] }
        if !env.decodeGpuOk f then rs1
        else
          match env.uploadResult f with
          | some gw =>
            let rs2 : RunSt :=
              if rs1.fdsNeedFlush + gw.planesLen > MAX_FDS_OUT then
                { rs1 with trace := rs1.trace ++ [.flush], fdsNeedFlush := 0 }
              else rs1
            let rs3 : RunSt := { rs2 with
              fdsNeedFlush := rs2.fdsNeedFlush + gw.planesLen,
              trace := rs2.trace ++ [EventT.queueFds gw.planesLen] }
            let ob := rs3.store.allocObj
            let wp : WallpaperT :=
              ⟨none, .dmabuf u.gpuDevice gw.modifier (some ob.1),
                f.canonPath, f.canonModified⟩
            let al := ob.2.alloc wp
            { rs3 with
                store := al.2,
                acc := rs3.acc ++ [⟨f.workspace, f.workspaceNumber, al.1⟩] }
          | none =>
            loadStepShm env shmSizeV { rs1 with uploader := none } f
      | none => loadStepShm env shmSizeV rs f

/-- The load_wallpapers file loop folded over the listed files. -/
def loadLoop (env : EnvT) (layers0 : List BackgroundLayerT) (w h : Nat)
    (t : TransformT) (shmSizeV : Nat) (rs : RunSt) : List WallpaperFileT → RunSt
  | [] => rs
  | f :: rest =>
    loadLoop env layers0 w h t shmSizeV (loadStep env layers0 w h t shmSizeV rs f) rest

/-- load_wallpapers (src/wayland.rs:949-1142): flush first, run the file
loop, flush once more when descriptors are still queued, then install the
accumulated bindings as the layer's workspace backgrounds. -/
def loadWallpapers (st : SysStateT) (env : EnvT) (i : Nat)
    (up : Option GpuUploaderT) : SysStateT × List EventT :=
  let layer := st.layers.getD i default
  let shmSizeV := shmStride env.shmFormat layer.width * layer.height
  let rs0 : RunSt := ⟨st.store, [], up, 0, [.flush]⟩
  let rs1 := loadLoop env st.layers layer.width layer.height layer.transform
    shmSizeV rs0 env.files
  let rs2 :=
    if rs1.fdsNeedFlush > 0 then { rs1 with trace := rs1.trace ++ [.flush] }
    else rs1
  (⟨rs2.store,
    st.layers.set i { layer with workspaceBackgrounds := rs2.acc }⟩,
   rs2.trace)

/-! ## DMA-BUF feedback handling (src/wayland.rs:263-294, 1144-1226) -/

/-- One feedback tranche: target device and format-table indices. -/
structure TrancheT where
  device : Nat
  formats : List Nat
deriving DecidableEq, Repr, Inhabited

/-- A DMA-BUF feedback message: main device, format table of
(fourcc format, modifier) pairs, and tranches. -/
structure FeedbackT where
  mainDevice : Nat
  formatTable : List (Nat × Nat)
  tranches : List TrancheT
deriving DecidableEq, Repr, Inhabited

/-- Tranche selection and modifier collection of handle_dmabuf_feedback
(src/wayland.rs:1162-1185): the first tranche whose target device equals
the main device; from it the modifiers of entries whose format is
DRM_FORMAT_XRGB8888, skipping out-of-bounds indices. -/
def feedbackSelectedModifiers (fb : FeedbackT) : Option (List Nat) :=
  match fb.tranches.find? (fun t => t.device == fb.mainDevice) with
  | none => none
  | some t =>
    some (t.formats.filterMap fun ix =>
      match fb.formatTable.get? ix with
      | some q => if q.1 == DRM_FORMAT_XRGB8888 then some q.2 else none
      | none => none)

/-- The no-change test of handle_dmabuf_feedback (src/wayland.rs:1198-1213):
the layer already has bindings and every one is dmabuf-backed matching the
reported device and modifier set. -/
def feedbackNoChange (s : WStore) (layer : BackgroundLayerT) (mainDev : Nat)
    (mods : List Nat) : Bool :=
  !layer.workspaceBackgrounds.isEmpty
    && layer.workspaceBackgrounds.all fun e =>
      match s.find e.wallpaper with
      | some wp => wp.memory.dmabufFeedbackEq (some mainDev) mods
      | none => false

/-- handle_dmabuf_feedback (src/wayland.rs:1144-1226).  `none` models the
error return; `some` carries the resulting state and connection events. -/
def handleDmabufFeedback (st : SysStateT) (env : EnvT) (i : Nat) (fb : FeedbackT) :
    Option (SysStateT × List EventT) :=
  let layer := st.layers.getD i default
  if fb.tranches.isEmpty then none
  else
    match feedbackSelectedModifiers fb with
    | none => none
    | some mods =>
      if mods.isEmpty then none
      else if feedbackNoChange st.store layer fb.mainDevice mods then some (st, [])
      else
        match env.mkUploader (some fb.mainDevice) layer.width layer.height mods with
        | none => none
        | some u =>
          let st1 : SysStateT :=
            ⟨st.store, st.layers.set i { layer with workspaceBackgrounds := [] }⟩
          some (loadWallpapers st1 env i (some u))

/-- fallback_shm_load_wallpapers (src/wayland.rs:935-947): destroy the
layer's feedback object, clear its bindings and reload via wl_shm. -/
def fallbackShmLoadWallpapers (st : SysStateT) (env : EnvT) (i : Nat) :
    SysStateT × List EventT :=
  let layer := st.layers.getD i default
  let st1 : SysStateT :=
    ⟨st.store,
     st.layers.set i { layer with dmabufFeedback := none, workspaceBackgrounds := [] }⟩
  loadWallpapers st1 env i none

/-- DmabufHandler::dmabuf_feedback (src/wayland.rs:268-294): run the
handler and fall back to the shm path on error. -/
def dmabufFeedbackHandler (st : SysStateT) (env : EnvT) (i : Nat) (fb : FeedbackT) :
    SysStateT × List EventT :=
  match handleDmabufFeedback st env i fb with
  | some r => r
  | none => fallbackShmLoadWallpapers st env i

/-- File descriptors queued on the connection since the last flush, after
the given event sequence. -/
def outstandingFds (tr : List EventT) : Nat :=
  tr.foldl
    (fun n e =>
      match e with
      | .flush => 0
      | .queueFds k => n + k
      | .decode _ _ _ => n)
    0

/-! ## Derived predicates used by the statements -/

/-- The connection never has more than `bound` descriptors queued since the
last flush, at any point of the event sequence. -/
def FdsBounded (bound : Nat) (tr : List EventT) : Prop :=
  ∀ n : Nat, outstandingFds (tr.take n) ≤ bound

/-- Every binding of every layer references a wallpaper id below the store's
fresh-id counter. -/
def LayerRefsWF (st : SysStateT) : Prop :=
  ∀ bl ∈ st.layers, ∀ e ∈ bl.workspaceBackgrounds, e.wallpaper < st.store.nextId

/-- Loop invariant for the descriptor-batching bound: the descriptors
queued since the last flush never exceed the running counter, the counter
stays within MAX_FDS_OUT, and every point of the trace is bounded. -/
def FdsInv (rs : RunSt) : Prop :=
  outstandingFds rs.trace ≤ rs.fdsNeedFlush ∧ rs.fdsNeedFlush ≤ MAX_FDS_OUT ∧
    FdsBounded MAX_FDS_OUT rs.trace

/-- All bindings of the list dereference to wl_shm-backed wallpapers. -/
def AllShmEntries (s : WStore) (wbs : List WorkspaceBackgroundT) : Prop :=
  ∀ e ∈ wbs, ∃ wp, s.find e.wallpaper = some wp ∧ wp.memory.isShm = true

/-- The store only grew by fresh ids: the fresh-id counter did not
decrease, lookups below the old counter are unchanged, and
well-formedness is preserved. -/
def StoreEvolves (s0 s : WStore) : Prop :=
  s0.nextId ≤ s.nextId
  ∧ (∀ id, id < s0.nextId → s.find id = s0.find id)
  ∧ (s0.WF → s.WF)

/-! ## Concrete fixtures for witnesses and counterexamples -/

/-- Driver replies where only modifier 6 passes the support checks. -/
def c7BugEnv : UploaderEnvT where
  drmFormatProps := some [⟨6, true, 1⟩]
  imageFormatLimits := fun _ => some ⟨4096, 4096, 1, 1, 1, true, 1000000000⟩
  bufferMemReqSize := fun s => s

/-- Driver replies whose buffer memory requirement pads the create size. -/
def c8AlignEnv : UploaderEnvT where
  drmFormatProps := none
  imageFormatLimits := fun _ => none
  bufferMemReqSize := fun s => s + 252

/-- A configured single-output layer with a pending dmabuf wallpaper
(id 0, params object 42) bound for workspace "1" and queued. -/
def c5Store : WStore :=
  ⟨[(0, ⟨none, .dmabuf ⟨none, none, none⟩ 7 (some 42), "/w/a.png", 5⟩)], 1, 100⟩

/-- The layer of the pending-wallpaper fixture. -/
def c5Layer : BackgroundLayerT :=
  ⟨"eDP-1", 1920, 1080, true, [⟨"1", 1, 0⟩], none, some 0, .normal, false, some 9⟩

/-- The single-output pending-wallpaper state. -/
def c5State : SysStateT := ⟨c5Store, [c5Layer]⟩

/-- First output of the shared-pending fixture: the shared pending
wallpaper (id 0, params object 42) is bound for workspace "1" and queued. -/
def c5bLayerA : BackgroundLayerT :=
  ⟨"eDP-1", 1920, 1080, true, [⟨"1", 1, 0⟩], none, some 0, .normal, false, some 9⟩

/-- Second output of the shared-pending fixture: the same shared wallpaper
is bound for its workspace "1" and also queued. -/
def c5bLayerB : BackgroundLayerT :=
  ⟨"HDMI-1", 1920, 1080, true, [⟨"1", 1, 0⟩], none, some 0, .normal, false, some 9⟩

/-- Two outputs sharing one pending dmabuf wallpaper (the cross-layer
reuse of the wallpaper cache), both with the shared wallpaper queued. -/
def c5bState : SysStateT := ⟨c5Store, [c5bLayerA, c5bLayerB]⟩

/-- A configured layer with wallpapers for workspaces "1" and "_default",
both realized, currently showing "_default" (wallpaper id 1). -/
def c4Store : WStore :=
  ⟨[(0, ⟨some 50, .wlShm 8294400, "/w/1.jpg", 11⟩),
    (1, ⟨some 51, .wlShm 8294400, "/w/_default.jpg", 12⟩)], 2, 200⟩

/-- Layer fixture for draw-dispatch witnesses. -/
def c4Layer : BackgroundLayerT :=
  ⟨"eDP-1", 1920, 1080, true, [⟨"1", 1, 0⟩, ⟨"_default", 0, 1⟩], some 1, none,
    .normal, false, none⟩

/-- Environment with an empty wallpaper directory and no GPU results. -/
def c3Env : EnvT where
  files := []
  decodeGpuOk := fun _ => true
  decodeShmOk := fun _ => true
  shmPoolOk := fun _ => true
  uploadResult := fun _ => none
  shmFormat := .xrgb8888
  mkUploader := fun _ _ _ _ => none

/-- A two-output state in which output 0 still awaits feedback. -/
def c3State : SysStateT :=
  ⟨⟨[], 0, 0⟩,
   [⟨"DP-1", 1920, 1080, true, [], none, none, .normal, false, some 7⟩,
    ⟨"DP-2", 2560, 1440, true, [], none, none, .normal, false, none⟩]⟩

/-- A one-file environment for the load-loop witnesses. -/
def c1Env : EnvT where
  files := [⟨"/w/eDP-1/1.jpg", "1", 1, "/w/1.jpg", 11⟩,
            ⟨"/w/eDP-1/2.jpg", "2", 2, "/w/1.jpg", 11⟩]
  decodeGpuOk := fun _ => true
  decodeShmOk := fun _ => true
  shmPoolOk := fun _ => true
  uploadResult := fun _ => some ⟨7, 2⟩
  shmFormat := .xrgb8888
  mkUploader := fun _ _ _ _ => none

/-- A fresh single-output state for the load-loop witnesses. -/
def c1State : SysStateT :=
  ⟨⟨[], 0, 0⟩, [⟨"eDP-1", 1920, 1080, false, [], none, none, .normal, false, none⟩]⟩

/-- An uploader accepting modifiers 7 and 9 on a device with no DRM nodes. -/
def c1Uploader : GpuUploaderT := ⟨⟨none, none, none⟩, [7, 9]⟩

/-! ## Helper lemmas -/

theorem foldl_max_le_init (l : List Nat) (a : Nat) : a ≤ l.foldl Nat.max a := by
  induction l generalizing a with
  | nil => exact Nat.le_refl a
  | cons x xs ih =>
    rw [List.foldl_cons]
    exact Nat.le_trans (Nat.le_max_left a x) (ih (Nat.max a x))

theorem mem_le_foldl_max (l : List Nat) : ∀ (a x : Nat), x ∈ l → x ≤ l.foldl Nat.max a := by
  induction l with
  | nil => intro a x hx; cases hx
  | cons y ys ih =>
    intro a x hx
    rw [List.foldl_cons]
    rcases List.mem_cons.mp hx with h | h
    · subst h; exact Nat.le_trans (Nat.le_max_right a x) (foldl_max_le_init ys _)
    · exact ih _ x h

theorem physdevScore_of_matches (d : Option Nat) (p : PhysdevPropsT)
    (h : matchesReportedNode d p = true) : 8 ≤ physdevScore d p := by
  rcases p with ⟨ty, hd, pr, re⟩
  simp only [matchesReportedNode, Bool.and_eq_true] at h
  obtain ⟨h1, h2⟩ := h
  cases ty <;> simp [physdevScore, h1, h2, SCORE_DISCRETE_GPU,
    SCORE_INTEGRATED_GPU, SCORE_VIRTUAL_GPU, SCORE_MATCHES_DRM_DEV] <;> decide

theorem physdevScore_of_not_matches (d : Option Nat) (p : PhysdevPropsT)
    (h : matchesReportedNode d p = false) : physdevScore d p < 8 := by
  rcases p with ⟨ty, hd, pr, re⟩
  cases hd with
  | false => cases ty <;> simp [physdevScore] <;> decide
  | true =>
    simp only [matchesReportedNode, Bool.true_and] at h
    cases ty <;> simp [physdevScore, h] <;> decide

/-! ## C2: scaling decision table -/

/-- C2 counterexample: at the positive triple with pixel size 2000x1000,
logical size 2000x500 and integer scale 1, the code chooses no scaling
(the widths agree) while the claimed table requires fractional scaling. -/
theorem c2_scaling_table_counterexample :
    (0 : Int) < 2000 ∧ (0 : Int) < 1000 ∧ (0 : Int) < 500 ∧
    chooseScaling 2000 1000 2000 500 1 = .noScaling ∧
    specScalingTable 2000 1000 2000 500 1 = .fractionalScale 2000 500 ∧
    chooseScaling 2000 1000 2000 500 1 ≠ specScalingTable 2000 1000 2000 500 1 := by
  refine ⟨by decide, by decide, by decide, by decide, by decide, by decide⟩

/-- C2 (amended): for every positive pixel and logical size and integer
scale factor, the scaling strategy follows the table whose first row is
"pixel width equals logical width OR pixel height equals logical height
implies no scaling", then the integer-scale row, else fractional. -/
theorem c2_scaling_decision_amended (w h lw lh s : Int)
    (hw : 0 < w) (hh : 0 < h) (hlw : 0 < lw) (hlh : 0 < lh) :
    chooseScaling w h lw lh s = amendedScalingTable w h lw lh s := rfl

theorem c2_scaling_decision_amended_witness :
    ((0 : Int) < 2560 ∧ (0 : Int) < 1440 ∧ (0 : Int) < 1707 ∧ (0 : Int) < 960) ∧
    chooseScaling 2560 1440 1707 960 2 = amendedScalingTable 2560 1440 1707 960 2 :=
  ⟨by decide,
   c2_scaling_decision_amended 2560 1440 1707 960 2 (by decide) (by decide)
     (by decide) (by decide)⟩

/-! ## C6: physical device scoring -/

/-- C6: the probe score is the bitwise OR of weight 8 for a reported-node
match, 4 for discrete, 2 for integrated and 1 for virtual; and for every
enumeration order, a device whose primary or render node matches the
reported device keeps any otherwise-identical non-matching device out of
the retained maximum-score candidate set. -/
theorem c6_device_scoring :
    (∀ (d : Option Nat) (p : PhysdevPropsT),
        physdevScore d p
          = specDeviceScore (matchesReportedNode d p)
              (decide (p.devType = PhysicalDeviceTypeT.discreteGpu))
              (decide (p.devType = PhysicalDeviceTypeT.integratedGpu))
              (decide (p.devType = PhysicalDeviceTypeT.virtualGpu)))
    ∧ (∀ (d : Option Nat) (p q : PhysdevPropsT) (infos : List PhysdevPropsT),
        matchesReportedNode d p = true → matchesReportedNode d q = false →
        p.devType = q.devType → p ∈ infos → q ∉ deviceCandidates d infos) := by
  constructor
  · intro d p
    rcases p with ⟨ty, hd, pr, re⟩
    cases ty <;> cases hd <;>
      cases hcond : d.isSome && (d == pr || d == re) <;>
      simp [physdevScore, matchesReportedNode, specDeviceScore, hcond] <;> decide
  · intro d p q infos hp hq hty hmem hqc
    have hq8 : physdevScore d q < 8 := physdevScore_of_not_matches d q hq
    have hp8 : 8 ≤ physdevScore d p := physdevScore_of_matches d p hp
    have hmax : physdevScore d p ≤ maxPhysdevScore d infos :=
      mem_le_foldl_max _ 0 _ (List.mem_map_of_mem (physdevScore d) hmem)
    rcases List.mem_filter.mp hqc with ⟨_, hsc⟩
    have heq : physdevScore d q = maxPhysdevScore d infos := eq_of_beq hsc
    omega

theorem c6_device_scoring_witness :
    matchesReportedNode (some 3)
      (⟨.integratedGpu, true, some 3, none⟩ : PhysdevPropsT) = true ∧
    (⟨.integratedGpu, false, some 3, none⟩ : PhysdevPropsT) ∉
      deviceCandidates (some 3)
        [⟨.integratedGpu, false, some 3, none⟩, ⟨.integratedGpu, true, some 3, none⟩] :=
  ⟨by decide,
   c6_device_scoring.2 (some 3) ⟨.integratedGpu, true, some 3, none⟩
     ⟨.integratedGpu, false, some 3, none⟩ _ (by decide) (by decide) rfl
     (by decide)⟩

/-! ## C7: modifier filtering in uploader -/

/-- C7 (code bug): with candidates [5, 6] where only 6 passes the support
checks, the filtering stage of `uploader` errors out after the first
candidate because the emptiness test sits inside the loop, although the
subset of passing candidates, [6], is not empty; the same candidate set in
the other order succeeds and retains [6]. -/
theorem c7_modifier_filter_inside_loop_bug :
    uploaderModifiers c7BugEnv 1 1 [5, 6] = none ∧
    [5, 6].filter (filterModifier c7BugEnv [⟨6, true, 1⟩] 1 1 4) = [6] ∧
    uploaderModifiers c7BugEnv 1 1 [6, 5] = some [6] :=
  ⟨rfl, rfl, rfl⟩

/-! ## C8: staging buffer size -/

/-- C8 counterexample: with a driver whose reported memory requirement pads
the create size, the staging slice exposed for a 1x1 upload session does
not have length 1*1*4. -/
theorem c8_staging_len_counterexample :
    uploaderStagingLen c8AlignEnv 1 1 ≠ 1 * 1 * 4 := by decide

/-- C8 (amended): the staging buffer is created with size exactly
width*height*4 bytes, while the exposed mutable slice has the length of
the driver-reported memory requirement for that buffer, which is at least
width*height*4 whenever the driver reports requirements no smaller than
the create size. -/
theorem c8_staging_len_amended (env : UploaderEnvT) (w h : Nat)
    (hconf : ∀ s, s ≤ env.bufferMemReqSize s) :
    stagingBufferCreateSize w h = w * h * 4 ∧
    uploaderStagingLen env w h = env.bufferMemReqSize (w * h * 4) ∧
    w * h * 4 ≤ uploaderStagingLen env w h :=
  ⟨rfl, rfl, hconf _⟩

theorem c8_staging_len_amended_witness :
    (∀ s, s ≤ c8AlignEnv.bufferMemReqSize s) ∧
    (stagingBufferCreateSize 2 3 = 2 * 3 * 4 ∧
     uploaderStagingLen c8AlignEnv 2 3 = c8AlignEnv.bufferMemReqSize (2 * 3 * 4) ∧
     2 * 3 * 4 ≤ uploaderStagingLen c8AlignEnv 2 3) :=
  ⟨fun s => Nat.le_add_right s 252,
   c8_staging_len_amended c8AlignEnv 2 3 (fun s => Nat.le_add_right s 252)⟩

/-! ## Store and list helper lemmas -/

theorem find?_map_key_preserving (g : Nat × WallpaperT → Nat × WallpaperT)
    (hg : ∀ q, (g q).1 = q.1) (k : Nat) (ws : List (Nat × WallpaperT)) :
    (ws.map g).find? (fun q => q.1 == k) = (ws.find? (fun q => q.1 == k)).map g := by
  induction ws with
  | nil => rfl
  | cons q ws ih =>
    simp only [List.map_cons, List.find?]
    rw [hg]
    cases h : (q.1 == k) <;> simp [h, ih]

theorem WStore.modify_key_preserving (id : Nat) (f : WallpaperT → WallpaperT) :
    ∀ q : Nat × WallpaperT,
      ((fun q => if q.1 == id then (q.1, f q.2) else q) q).1 = q.1 := by
  intro q
  by_cases h : (q.1 == id) = true <;> simp [h]

theorem WStore.find_modify_self (s : WStore) (id : Nat) (f : WallpaperT → WallpaperT)
    (wp : WallpaperT) (h : s.find id = some wp) :
    (s.modify id f).find id = some (f wp) := by
  rcases s with ⟨ws, ni, no⟩
  simp only [WStore.find, WStore.modify] at h ⊢
  rw [find?_map_key_preserving _ (WStore.modify_key_preserving id f)]
  cases hf : ws.find? (fun q => q.1 == id) with
  | none => rw [hf] at h; simp at h
  | some qq =>
    rw [hf] at h
    have hk : qq.1 = id := by simpa using List.find?_some hf
    have h2 : qq.2 = wp := by simpa using h
    simp [hk, h2]

theorem WStore.find_modify_ne (s : WStore) (id id' : Nat) (f : WallpaperT → WallpaperT)
    (h : id' ≠ id) : (s.modify id f).find id' = s.find id' := by
  rcases s with ⟨ws, ni, no⟩
  simp only [WStore.find, WStore.modify]
  rw [find?_map_key_preserving _ (WStore.modify_key_preserving id f)]
  cases hf : ws.find? (fun q => q.1 == id') with
  | none => rfl
  | some qq =>
    have hk' : qq.1 = id' := by simpa using List.find?_some hf
    simp [hk', h]

theorem getD_append_length (pre : List BackgroundLayerT) (x : BackgroundLayerT)
    (rest : List BackgroundLayerT) (d : BackgroundLayerT) :
    (pre ++ x :: rest).getD pre.length d = x := by
  induction pre with
  | nil => rfl
  | cons y ys ih => simpa using ih

/-! ## Draw dispatch lemmas -/

theorem resolve_of_name_found (wbs : List WorkspaceBackgroundT) (name : String)
    (num : Int) (bg : WorkspaceBackgroundT)
    (h : wbs.find? (fun b => b.workspaceName == name) = some bg) :
    resolveWorkspaceBg wbs name num = some bg := by
  simp [resolveWorkspaceBg, h]

theorem resolve_of_number_found (wbs : List WorkspaceBackgroundT) (name : String)
    (num : Int) (bg : WorkspaceBackgroundT)
    (h1 : wbs.find? (fun b => b.workspaceName == name) = none)
    (h2 : wbs.find? (fun b => b.workspaceNumber == num) = some bg) :
    resolveWorkspaceBg wbs name num = some bg := by
  simp [resolveWorkspaceBg, h1, h2, Option.orElse]

theorem resolve_of_default_found (wbs : List WorkspaceBackgroundT) (name : String)
    (num : Int) (bg : WorkspaceBackgroundT)
    (h1 : wbs.find? (fun b => b.workspaceName == name) = none)
    (h2 : wbs.find? (fun b => b.workspaceNumber == num) = none)
    (h3 : wbs.find? (fun b => b.workspaceName == "_default") = some bg) :
    resolveWorkspaceBg wbs name num = some bg := by
  simp [resolveWorkspaceBg, h1, h2, h3, Option.orElse]

/-! ## C4: draw dispatch resolution order -/

/-- C4: on a configured layer the wallpaper for (name, number) resolves by
the fixed order: first binding with the exact workspace name, else first
with the workspace number, else first named "_default"; when none of the
three matches, draw only reports an error and leaves the layer (including
the currently attached wallpaper) unchanged. -/
theorem c4_draw_resolution_order (store : WStore) (layer : BackgroundLayerT)
    (name : String) (num : Int) (hconf : layer.configured = true) :
    (∀ bg, layer.workspaceBackgrounds.find? (fun b => b.workspaceName == name) = some bg →
        resolveWorkspaceBg layer.workspaceBackgrounds name num = some bg)
    ∧ (layer.workspaceBackgrounds.find? (fun b => b.workspaceName == name) = none →
        ∀ bg, layer.workspaceBackgrounds.find? (fun b => b.workspaceNumber == num) = some bg →
          resolveWorkspaceBg layer.workspaceBackgrounds name num = some bg)
    ∧ (layer.workspaceBackgrounds.find? (fun b => b.workspaceName == name) = none →
        layer.workspaceBackgrounds.find? (fun b => b.workspaceNumber == num) = none →
        ∀ bg, layer.workspaceBackgrounds.find? (fun b => b.workspaceName == "_default") = some bg →
          resolveWorkspaceBg layer.workspaceBackgrounds name num = some bg)
    ∧ (resolveWorkspaceBg layer.workspaceBackgrounds name num = none →
        drawWorkspaceBg store layer name num = (layer, [ActionT.errorLog])) := by
  refine ⟨?_, ?_, ?_, ?_⟩
  · intro bg h; exact resolve_of_name_found _ _ _ _ h
  · intro h1 bg h2; exact resolve_of_number_found _ _ _ _ h1 h2
  · intro h1 h2 bg h3; exact resolve_of_default_found _ _ _ _ h1 h2 h3
  · intro hres
    simp [drawWorkspaceBg, hconf, hres]

theorem c4_draw_resolution_order_witness :
    c4Layer.configured = true ∧
    (resolveWorkspaceBg c4Layer.workspaceBackgrounds "9" 9
        = some ⟨"_default", 0, 1⟩ ∧
      resolveWorkspaceBg c4Layer.workspaceBackgrounds "1" 1 = some ⟨"1", 1, 0⟩) :=
  ⟨rfl,
   (c4_draw_resolution_order c4Store c4Layer "9" 9 rfl).2.2.1
      (by decide) (by decide) ⟨"_default", 0, 1⟩ (by decide),
   (c4_draw_resolution_order c4Store c4Layer "1" 1 rfl).1 ⟨"1", 1, 0⟩ (by decide)⟩

theorem draw_pending (s : WStore) (ly : BackgroundLayerT) (nm : String) (n : Int)
    (bg : WorkspaceBackgroundT) (wpb : WallpaperT)
    (hconf : ly.configured = true)
    (hres : resolveWorkspaceBg ly.workspaceBackgrounds nm n = some bg)
    (hcur : ly.currentWallpaper ≠ some bg.wallpaper)
    (hfindw : s.find bg.wallpaper = some wpb)
    (hbuf : wpb.wlBuffer = none) :
    drawWorkspaceBg s ly nm n
      = ({ ly with queuedWallpaper := some bg.wallpaper }, []) := by
  have hcur' : (ly.currentWallpaper == some bg.wallpaper) = false := by
    simpa using hcur
  simp [drawWorkspaceBg, hconf, hres, hcur', hfindw, hbuf]

theorem draw_attach (s : WStore) (ly : BackgroundLayerT) (nm : String) (n : Int)
    (bg : WorkspaceBackgroundT) (wpb : WallpaperT) (buf : Nat)
    (hconf : ly.configured = true)
    (hres : resolveWorkspaceBg ly.workspaceBackgrounds nm n = some bg)
    (hcur : ly.currentWallpaper ≠ some bg.wallpaper)
    (hfindw : s.find bg.wallpaper = some wpb)
    (hbuf : wpb.wlBuffer = some buf) :
    drawWorkspaceBg s ly nm n
      = ({ ly with currentWallpaper := some bg.wallpaper, queuedWallpaper := none },
         [.attach buf, .damage ly.width ly.height, .commit]) := by
  have hcur' : (ly.currentWallpaper == some bg.wallpaper) = false := by
    simpa using hcur
  simp [drawWorkspaceBg, hconf, hres, hcur', hfindw, hbuf]

/-! ## C10: drawing an already attached wallpaper is a no-op -/

/-- C10: when the resolved wallpaper is the same shared instance as the
output's currently attached wallpaper, draw performs no attach, damage or
commit and leaves the layer completely unchanged; consequently drawing
the same workspace twice in succession yields the same layer state as
drawing it once. -/
theorem c10_draw_skip_and_idempotent (store : WStore) (layer : BackgroundLayerT)
    (name : String) (num : Int) :
    (∀ bg, layer.configured = true →
        resolveWorkspaceBg layer.workspaceBackgrounds name num = some bg →
        layer.currentWallpaper = some bg.wallpaper →
        drawWorkspaceBg store layer name num = (layer, []))
    ∧ (drawWorkspaceBg store (drawWorkspaceBg store layer name num).1 name num).1
        = (drawWorkspaceBg store layer name num).1 := by
  constructor
  · intro bg hconf hres hcur
    simp [drawWorkspaceBg, hconf, hres, hcur]
  · cases hc : layer.configured with
    | false => simp [drawWorkspaceBg, hc]
    | true =>
      cases hres : resolveWorkspaceBg layer.workspaceBackgrounds name num with
      | none => simp [drawWorkspaceBg, hc, hres]
      | some bg =>
        cases hcur : layer.currentWallpaper == some bg.wallpaper with
        | true => simp [drawWorkspaceBg, hc, hres, hcur]
        | false =>
          cases hw : store.find bg.wallpaper with
          | none => simp [drawWorkspaceBg, hc, hres, hcur, hw]
          | some wp =>
            cases hb : wp.wlBuffer with
            | none => simp [drawWorkspaceBg, hc, hres, hcur, hw, hb]
            | some buf => simp [drawWorkspaceBg, hc, hres, hcur, hw, hb]

theorem c10_draw_skip_and_idempotent_witness :
    (c4Layer.configured = true ∧
     resolveWorkspaceBg c4Layer.workspaceBackgrounds "_default" 0
        = some ⟨"_default", 0, 1⟩ ∧
     c4Layer.currentWallpaper = some 1) ∧
    drawWorkspaceBg c4Store c4Layer "_default" 0 = (c4Layer, []) ∧
    (drawWorkspaceBg c4Store (drawWorkspaceBg c4Store c4Layer "_default" 0).1
        "_default" 0).1
      = (drawWorkspaceBg c4Store c4Layer "_default" 0).1 :=
  ⟨⟨rfl, by decide, rfl⟩,
   (c10_draw_skip_and_idempotent c4Store c4Layer "_default" 0).1
     ⟨"_default", 0, 1⟩ rfl (by decide) rfl,
   (c10_draw_skip_and_idempotent c4Store c4Layer "_default" 0).2⟩

/-! ## created-callback lemmas -/

theorem createdGo_append_no_match (store : WStore) (p b : Nat)
    (pre ls : List BackgroundLayerT)
    (h : ∀ l ∈ pre, findParamsMatch store l.workspaceBackgrounds p = none) :
    createdGo store p b (pre ++ ls)
      = ((createdGo store p b ls).1, pre ++ (createdGo store p b ls).2) := by
  induction pre with
  | nil => simp
  | cons l pre ih =>
    have hl := h l (by simp)
    have ih' := ih fun l' hl' => h l' (by simp [hl'])
    simp [createdGo, hl, ih']

theorem createdGo_layer_no_match (store : WStore) (p b : Nat) :
    ∀ (ls : List BackgroundLayerT) (i : Nat),
      findParamsMatch store (ls.getD i default).workspaceBackgrounds p = none →
      (createdGo store p b ls).2.getD i default = ls.getD i default := by
  intro ls
  induction ls with
  | nil => intro i h; simp [createdGo]
  | cons l rest ih =>
    intro i h
    cases hm : findParamsMatch store l.workspaceBackgrounds p with
    | some e =>
      cases i with
      | zero => simp [List.getD_cons_zero, hm] at h
      | succ n => simp [createdGo, hm]
    | none =>
      cases i with
      | zero => simp [createdGo, hm]
      | succ n =>
        have hr := ih n (by simpa using h)
        simp only [createdGo, hm]
        simpa using hr

/-! ## C5: pending wallpaper and buffer realization -/

/-- C5 (amended): an unrealized resolved wallpaper is recorded as the
single pending wallpaper of the output, superseding any earlier pending
entry; when the buffer-creation callback fires for exactly that
wallpaper's params object and no earlier layer holds a binding matching
that params object (the callback handles only the first matching layer
and returns), the buffer is stored into the shared wallpaper, its params
object is cleared, and the attach completes on that output; a creation
callback for a params object that matches none of the output's bindings
leaves that output's layer (hence its pending and current wallpaper)
unchanged. -/
theorem c5_pending_wallpaper_lifecycle
    (store : WStore) (pre rest : List BackgroundLayerT) (layer : BackgroundLayerT)
    (e : WorkspaceBackgroundT) (wp : WallpaperT) (dev : GpuDeviceT) (m p b : Nat)
    (hpre : ∀ l ∈ pre, findParamsMatch store l.workspaceBackgrounds p = none)
    (hfind : findParamsMatch store layer.workspaceBackgrounds p = some e)
    (hwp : store.find e.wallpaper = some wp)
    (hmem : wp.memory = MemoryT.dmabuf dev m (some p))
    (hq : layer.queuedWallpaper = some e.wallpaper)
    (hconf : layer.configured = true)
    (hres : resolveWorkspaceBg layer.workspaceBackgrounds e.workspaceName
        e.workspaceNumber = some e)
    (hcur : layer.currentWallpaper ≠ some e.wallpaper) :
    (∀ (s : WStore) (ly : BackgroundLayerT) (nm : String) (n : Int)
        (bg : WorkspaceBackgroundT) (wpb : WallpaperT),
        ly.configured = true →
        resolveWorkspaceBg ly.workspaceBackgrounds nm n = some bg →
        ly.currentWallpaper ≠ some bg.wallpaper →
        s.find bg.wallpaper = some wpb → wpb.wlBuffer = none →
        drawWorkspaceBg s ly nm n = ({ ly with queuedWallpaper := some bg.wallpaper }, []))
    ∧ created ⟨store, pre ++ layer :: rest⟩ p b
        = ⟨store.modify e.wallpaper
             (fun w => { w with memory := w.memory.clearParams, wlBuffer := some b }),
           pre ++ { layer with currentWallpaper := some e.wallpaper,
                               queuedWallpaper := none } :: rest⟩
    ∧ (store.modify e.wallpaper
         (fun w => { w with memory := w.memory.clearParams, wlBuffer := some b })).find
           e.wallpaper
        = some { wp with memory := MemoryT.dmabuf dev m none, wlBuffer := some b }
    ∧ (∀ p' b' : Nat, findParamsMatch store layer.workspaceBackgrounds p' = none →
        (created ⟨store, pre ++ layer :: rest⟩ p' b').layers.getD pre.length default
          = layer) := by
  have hstore2 : (store.modify e.wallpaper
      (fun w => { w with memory := w.memory.clearParams, wlBuffer := some b })).find
        e.wallpaper
      = some { wp with memory := MemoryT.dmabuf dev m none, wlBuffer := some b } := by
    rw [WStore.find_modify_self store e.wallpaper _ wp hwp]
    rw [hmem]
    rfl
  refine ⟨?_, ?_, hstore2, ?_⟩
  · intro s ly nm n bg wpb h1 h2 h3 h4 h5
    exact draw_pending s ly nm n bg wpb h1 h2 h3 h4 h5
  · have hdraw := draw_attach
      (store.modify e.wallpaper
        (fun w => { w with memory := w.memory.clearParams, wlBuffer := some b }))
      layer e.workspaceName e.workspaceNumber e
      { wp with memory := MemoryT.dmabuf dev m none, wlBuffer := some b } b
      hconf hres hcur hstore2 rfl
    show (⟨(createdGo store p b (pre ++ layer :: rest)).1,
           (createdGo store p b (pre ++ layer :: rest)).2⟩ : SysStateT) = _
    rw [createdGo_append_no_match store p b pre (layer :: rest) hpre]
    simp only [createdGo, hfind, hq, hstore2, hdraw]
    simp
  · intro p' b' hno
    have h1 := createdGo_layer_no_match store p' b' (pre ++ layer :: rest) pre.length
      (by rw [getD_append_length]; exact hno)
    rw [getD_append_length] at h1
    exact h1

theorem c5_pending_wallpaper_lifecycle_witness :
    (findParamsMatch c5Store c5Layer.workspaceBackgrounds 42 = some ⟨"1", 1, 0⟩ ∧
     c5Layer.queuedWallpaper = some 0) ∧
    created ⟨c5Store, [c5Layer]⟩ 42 99
      = ⟨c5Store.modify 0
           (fun w => { w with memory := w.memory.clearParams, wlBuffer := some 99 }),
         [{ c5Layer with currentWallpaper := some 0, queuedWallpaper := none }]⟩ :=
  ⟨⟨by decide, rfl⟩,
   (c5_pending_wallpaper_lifecycle c5Store [] [] c5Layer ⟨"1", 1, 0⟩
      ⟨none, .dmabuf ⟨none, none, none⟩ 7 (some 42), "/w/a.png", 5⟩
      ⟨none, none, none⟩ 7 42 99
      (by simp) (by decide) (by decide) rfl rfl rfl (by decide) (by decide)).2.1⟩

/-- C5 counterexample: two outputs share one pending wallpaper and both
have it queued; the buffer-creation callback for exactly that wallpaper's
params object stores the buffer into the shared wallpaper and completes
the attach on the first layer only, then returns — the second output's
queued attach stays incomplete even though the callback fired for exactly
its pending wallpaper's params object, contradicting the claim that the
attach is completed for that output. -/
theorem c5_pending_wallpaper_counterexample :
    ((c5bState.layers.getD 1 default).queuedWallpaper = some 0
     ∧ (c5bState.layers.getD 1 default).currentWallpaper = none
     ∧ (c5bState.store.find 0).map (fun w => w.memory.paramsMatch 42) = some true)
    ∧ ((created c5bState 42 99).store.find 0).map (fun w => w.wlBuffer)
        = some (some 99)
    ∧ ((created c5bState 42 99).layers.getD 0 default).currentWallpaper = some 0
    ∧ ((created c5bState 42 99).layers.getD 1 default).queuedWallpaper = some 0
    ∧ ((created c5bState 42 99).layers.getD 1 default).currentWallpaper = none := by
  decide

/-! ## Store allocation lemmas -/

theorem WStore.find_alloc_preserve (s : WStore) (w : WallpaperT) (id : Nat)
    (wp : WallpaperT) (h : s.find id = some wp) : (s.alloc w).2.find id = some wp := by
  rcases s with ⟨ws, ni, no⟩
  simp only [WStore.find, WStore.alloc] at h ⊢
  rw [List.find?_append]
  cases hf : ws.find? (fun q => q.1 == id) with
  | none => rw [hf] at h; simp at h
  | some qq => rw [hf] at h; simpa using h

theorem WStore.find_allocObj_eq (s : WStore) (id : Nat) :
    (s.allocObj).2.find id = s.find id := rfl

theorem WStore.find_alloc_lt (s : WStore) (w : WallpaperT) (id : Nat)
    (hid : id < s.nextId) : (s.alloc w).2.find id = s.find id := by
  rcases s with ⟨ws, ni, no⟩
  simp only [WStore.find, WStore.alloc]
  rw [List.find?_append]
  cases hf : ws.find? (fun q => q.1 == id) with
  | some qq => simp
  | none =>
    have hne : (ni == id) = false := by
      simp only [beq_eq_false_iff_ne]
      simp only [WStore.nextId] at hid
      omega
    simp [List.find?, hne]

theorem WStore.find_alloc_self (s : WStore) (w : WallpaperT) (hwf : s.WF) :
    (s.alloc w).2.find s.nextId = some w := by
  rcases s with ⟨ws, ni, no⟩
  simp only [WStore.WF] at hwf
  simp only [WStore.find, WStore.alloc]
  have hnone : ws.find? (fun q => q.1 == ni) = none := by
    rw [List.find?_eq_none]
    intro q hq
    have hlt := hwf q hq
    simp only [WStore.nextId] at hlt
    simp only [beq_iff_eq]
    omega
  rw [List.find?_append, hnone]
  simp [List.find?]

theorem WStore.alloc_WF (s : WStore) (w : WallpaperT) (h : s.WF) : (s.alloc w).2.WF := by
  rcases s with ⟨ws, ni, no⟩
  simp only [WStore.WF, WStore.alloc] at h ⊢
  intro q hq
  rcases List.mem_append.mp hq with h1 | h1
  · exact Nat.lt_trans (h q h1) (Nat.lt_succ_self ni)
  · have : q = (ni, w) := by simpa using h1
    subst this
    exact Nat.lt_succ_self ni

/-! ## Trace lemmas -/

theorem outstandingFds_append_flush (tr : List EventT) :
    outstandingFds (tr ++ [.flush]) = 0 := by
  simp [outstandingFds, List.foldl_append]

theorem outstandingFds_append_queue (tr : List EventT) (k : Nat) :
    outstandingFds (tr ++ [.queueFds k]) = outstandingFds tr + k := by
  simp [outstandingFds, List.foldl_append]

theorem outstandingFds_append_decode (tr : List EventT) (sp : String) (mt : Nat) (g : Bool) :
    outstandingFds (tr ++ [.decode sp mt g]) = outstandingFds tr := by
  simp [outstandingFds, List.foldl_append]

theorem fdsBounded_append_one (bound : Nat) (tr : List EventT) (e : EventT)
    (h : FdsBounded bound tr) (h2 : outstandingFds (tr ++ [e]) ≤ bound) :
    FdsBounded bound (tr ++ [e]) := by
  intro n
  by_cases hn : n ≤ tr.length
  · rw [List.take_append_of_le_length hn]
    exact h n
  · have hlen : (tr ++ [e]).length ≤ n := by
      simp only [List.length_append, List.length_cons, List.length_nil]
      omega
    rw [List.take_of_length_le hlen]
    exact h2

/-! ## FdsInv step lemmas -/

theorem fdsInv_mk_eq (rs : RunSt) (s : WStore) (a : List WorkspaceBackgroundT)
    (u : Option GpuUploaderT) (h : FdsInv rs) :
    FdsInv ⟨s, a, u, rs.fdsNeedFlush, rs.trace⟩ := h

theorem fdsInv_flush_reset (rs : RunSt) (h : FdsInv rs) :
    FdsInv { rs with trace := rs.trace ++ [.flush], fdsNeedFlush := 0 } := by
  obtain ⟨h1, h2, h3⟩ := h
  refine ⟨?_, ?_, ?_⟩
  · simp [outstandingFds_append_flush]
  · simp [MAX_FDS_OUT]
  · exact fdsBounded_append_one _ _ _ h3 (by simp [outstandingFds_append_flush])

theorem fdsInv_count (rs : RunSt) (k : Nat) (h : FdsInv rs)
    (hk : rs.fdsNeedFlush + k ≤ MAX_FDS_OUT) :
    FdsInv { rs with fdsNeedFlush := rs.fdsNeedFlush + k } := by
  obtain ⟨h1, h2, h3⟩ := h
  exact ⟨by simpa using Nat.le_trans h1 (Nat.le_add_right _ k), hk, h3⟩

theorem fdsInv_decode (rs : RunSt) (sp : String) (mt : Nat) (g : Bool) (h : FdsInv rs) :
    FdsInv { rs with trace := rs.trace ++ [.decode sp mt g] } := by
  obtain ⟨h1, h2, h3⟩ := h
  refine ⟨?_, h2, ?_⟩
  · simpa [outstandingFds_append_decode] using h1
  · exact fdsBounded_append_one _ _ _ h3
      (by simpa [outstandingFds_append_decode] using Nat.le_trans h1 h2)

theorem fdsInv_count_queue (rs : RunSt) (k : Nat) (h : FdsInv rs)
    (hk : rs.fdsNeedFlush + k ≤ MAX_FDS_OUT) :
    FdsInv { rs with fdsNeedFlush := rs.fdsNeedFlush + k,
                     trace := rs.trace ++ [.queueFds k] } := by
  obtain ⟨h1, h2, h3⟩ := h
  refine ⟨?_, hk, ?_⟩
  · simpa [outstandingFds_append_queue] using Nat.add_le_add_right h1 k
  · exact fdsBounded_append_one _ _ _ h3
      (by
        rw [outstandingFds_append_queue]
        exact Nat.le_trans (Nat.add_le_add_right h1 k) hk)

theorem fdsInv_queue_decode (rs : RunSt) (k : Nat) (sp : String) (mt : Nat) (g : Bool)
    (h : FdsInv rs) (hk : outstandingFds rs.trace + k ≤ rs.fdsNeedFlush) :
    FdsInv { rs with trace := rs.trace ++ [.queueFds k, .decode sp mt g] } := by
  obtain ⟨h1, h2, h3⟩ := h
  have hassoc : rs.trace ++ [EventT.queueFds k, EventT.decode sp mt g]
      = (rs.trace ++ [EventT.queueFds k]) ++ [EventT.decode sp mt g] := by
    simp
  have hq : outstandingFds (rs.trace ++ [EventT.queueFds k]) ≤ rs.fdsNeedFlush := by
    rw [outstandingFds_append_queue]; exact hk
  have hbq : FdsBounded MAX_FDS_OUT (rs.trace ++ [EventT.queueFds k]) :=
    fdsBounded_append_one _ _ _ h3 (Nat.le_trans hq h2)
  refine ⟨?_, h2, ?_⟩
  · rw [hassoc, outstandingFds_append_decode, outstandingFds_append_queue]
    exact hk
  · rw [hassoc]
    exact fdsBounded_append_one _ _ _ hbq
      (by
        rw [outstandingFds_append_decode, outstandingFds_append_queue]
        exact Nat.le_trans hk h2)

theorem loadStepShm_fdsInv (env : EnvT) (shmSizeV : Nat) (rs : RunSt)
    (f : WallpaperFileT) (h : FdsInv rs) : FdsInv (loadStepShm env shmSizeV rs f) := by
  unfold loadStepShm
  by_cases h1 : rs.fdsNeedFlush + 1 > MAX_FDS_OUT
  all_goals
    first
      | (simp only [if_pos h1]
         have hA := fdsInv_flush_reset rs h
         have hB := fdsInv_count _ 1 hA (by simp [MAX_FDS_OUT])
         by_cases h2 : env.shmPoolOk f = true
         · simp only [h2, Bool.not_true, Bool.false_eq_true, if_false]
           have hC := fdsInv_queue_decode _ 1 f.canonPath f.canonModified false hB
             (by
              have := hA.1
              simpa using Nat.add_le_add_right this 1)
           by_cases h3 : env.decodeShmOk f = true
           · simp only [h3, Bool.not_true, Bool.false_eq_true, if_false]
             exact fdsInv_mk_eq _ _ _ _ hC
           · have h3' : env.decodeShmOk f = false := by
               cases hh : env.decodeShmOk f
               · rfl
               · exact absurd hh h3
             simp only [h3', Bool.not_false, if_true]
             exact hC
         · have h2' : env.shmPoolOk f = false := by
             cases hh : env.shmPoolOk f
             · rfl
             · exact absurd hh h2
           simp only [h2', Bool.not_false, if_true]
           exact hB)
      | (simp only [if_neg h1]
         have hcount : rs.fdsNeedFlush + 1 ≤ MAX_FDS_OUT := by omega
         have hB := fdsInv_count rs 1 h hcount
         by_cases h2 : env.shmPoolOk f = true
         · simp only [h2, Bool.not_true, Bool.false_eq_true, if_false]
           have hC := fdsInv_queue_decode _ 1 f.canonPath f.canonModified false hB
             (by
              have := h.1
              simpa using Nat.add_le_add_right this 1)
           by_cases h3 : env.decodeShmOk f = true
           · simp only [h3, Bool.not_true, Bool.false_eq_true, if_false]
             exact fdsInv_mk_eq _ _ _ _ hC
           · have h3' : env.decodeShmOk f = false := by
               cases hh : env.decodeShmOk f
               · rfl
               · exact absurd hh h3
             simp only [h3', Bool.not_false, if_true]
             exact hC
         · have h2' : env.shmPoolOk f = false := by
             cases hh : env.shmPoolOk f
             · rfl
             · exact absurd hh h2
           simp only [h2', Bool.not_false, if_true]
           exact hB)

theorem loadStep_fdsInv (env : EnvT) (layers0 : List BackgroundLayerT) (wv hv : Nat)
    (t : TransformT) (shmSizeV : Nat) (rs : RunSt) (f : WallpaperFileT)
    (hpl : ∀ gw, env.uploadResult f = some gw → gw.planesLen ≤ 4)
    (hinv : FdsInv rs) : FdsInv (loadStep env layers0 wv hv t shmSizeV rs f) := by
  unfold loadStep
  cases h1 : findEqualOutputWallpaper rs.store rs.acc f.canonPath f.canonModified
      rs.uploader with
  | some wid => exact fdsInv_mk_eq _ _ _ _ hinv
  | none =>
    cases h2 : findEqualWallpaper rs.store layers0 wv hv t f.canonPath f.canonModified
        rs.uploader with
    | some wid => exact fdsInv_mk_eq _ _ _ _ hinv
    | none =>
      cases h3 : rs.uploader with
      | none => exact loadStepShm_fdsInv env shmSizeV rs f hinv
      | some u =>
        have hD : FdsInv { rs with
            trace := rs.trace ++ [.decode f.canonPath f.canonModified true] } :=
          fdsInv_decode rs _ _ _ hinv
        by_cases h4 : env.decodeGpuOk f = true
        · simp only [h4, Bool.not_true, Bool.false_eq_true, if_false]
          cases h5 : env.uploadResult f with
          | some gw =>
            have hgw : gw.planesLen ≤ 4 := hpl gw h5
            by_cases h6 : rs.fdsNeedFlush + gw.planesLen > MAX_FDS_OUT
            · simp only [if_pos h6]
              have hF := fdsInv_flush_reset _ hD
              have hQ := fdsInv_count_queue _ gw.planesLen hF
                (by simp [MAX_FDS_OUT]; omega)
              exact fdsInv_mk_eq _ _ _ _ hQ
            · simp only [if_neg h6]
              have hQ := fdsInv_count_queue _ gw.planesLen hD
                (by show rs.fdsNeedFlush + gw.planesLen ≤ MAX_FDS_OUT; omega)
              exact fdsInv_mk_eq _ _ _ _ hQ
          | none =>
            exact loadStepShm_fdsInv env shmSizeV _ f (fdsInv_mk_eq _ _ _ _ hD)
        · have h4' : env.decodeGpuOk f = false := by
            cases hh : env.decodeGpuOk f
            · rfl
            · exact absurd hh h4
          simp only [h4', Bool.not_false, if_true]
          exact hD

theorem loadLoop_fdsInv (env : EnvT) (layers0 : List BackgroundLayerT) (wv hv : Nat)
    (t : TransformT) (shmSizeV : Nat)
    (hpl : ∀ f gw, env.uploadResult f = some gw → gw.planesLen ≤ 4) :
    ∀ (fs : List WallpaperFileT) (rs : RunSt), FdsInv rs →
      FdsInv (loadLoop env layers0 wv hv t shmSizeV rs fs) := by
  intro fs
  induction fs with
  | nil => intro rs hrs; exact hrs
  | cons f fs ih =>
    intro rs hrs
    exact ih _ (loadStep_fdsInv env layers0 wv hv t shmSizeV rs f (hpl f) hrs)

theorem final_flush_ok (rs : RunSt) (h : FdsInv rs) :
    FdsBounded MAX_FDS_OUT
      (if rs.fdsNeedFlush > 0 then { rs with trace := rs.trace ++ [.flush] } else rs).trace
    ∧ outstandingFds
      (if rs.fdsNeedFlush > 0 then { rs with trace := rs.trace ++ [.flush] } else rs).trace
      = 0 := by
  by_cases hf : rs.fdsNeedFlush > 0
  · simp only [if_pos hf]
    exact ⟨fdsBounded_append_one _ _ _ h.2.2
        (by simp [outstandingFds_append_flush, MAX_FDS_OUT]),
      outstandingFds_append_flush _⟩
  · simp only [if_neg hf]
    refine ⟨h.2.2, ?_⟩
    have h1 := h.1
    omega

/-! ## C9: descriptor batching bound -/

/-- C9: throughout loading the wallpapers of one output, the descriptors
queued on the connection since the last flush never exceed MAX_FDS_OUT at
any point of the event sequence, and at the end of the load no queued
descriptor remains unflushed (a final flush is issued when needed). -/
theorem c9_fd_flush_bound (st : SysStateT) (env : EnvT) (i : Nat)
    (up : Option GpuUploaderT)
    (hplanes : ∀ f gw, env.uploadResult f = some gw → gw.planesLen ≤ 4) :
    FdsBounded MAX_FDS_OUT (loadWallpapers st env i up).2
    ∧ outstandingFds (loadWallpapers st env i up).2 = 0 := by
  have h0 : FdsInv (⟨st.store, [], up, 0, [.flush]⟩ : RunSt) := by
    refine ⟨?_, ?_, ?_⟩
    · simp [outstandingFds]
    · simp [MAX_FDS_OUT]
    · intro n
      cases n with
      | zero => simp [outstandingFds]
      | succ m => simp [outstandingFds, List.take, MAX_FDS_OUT]
  have hloop := loadLoop_fdsInv env st.layers
    (st.layers.getD i default).width (st.layers.getD i default).height
    (st.layers.getD i default).transform
    (shmStride env.shmFormat (st.layers.getD i default).width
      * (st.layers.getD i default).height)
    hplanes env.files ⟨st.store, [], up, 0, [.flush]⟩ h0
  exact final_flush_ok _ hloop

theorem c9_fd_flush_bound_witness :
    (∀ f gw, c1Env.uploadResult f = some gw → gw.planesLen ≤ 4) ∧
    (FdsBounded MAX_FDS_OUT (loadWallpapers c1State c1Env 0 (some c1Uploader)).2 ∧
     outstandingFds (loadWallpapers c1State c1Env 0 (some c1Uploader)).2 = 0) := by
  have hp : ∀ f gw, c1Env.uploadResult f = some gw → gw.planesLen ≤ 4 := by
    intro f gw hgw
    have hg : gw = ⟨7, 2⟩ := by simpa [c1Env] using hgw.symm
    subst hg
    decide
  exact ⟨hp, c9_fd_flush_bound c1State c1Env 0 (some c1Uploader) hp⟩

/-! ## Store evolution lemmas -/

theorem storeEvolves_refl (s : WStore) : StoreEvolves s s :=
  ⟨Nat.le_refl _, fun _ _ => rfl, id⟩

theorem storeEvolves_trans {s0 s1 s2 : WStore} (h1 : StoreEvolves s0 s1)
    (h2 : StoreEvolves s1 s2) : StoreEvolves s0 s2 := by
  obtain ⟨a1, b1, c1⟩ := h1
  obtain ⟨a2, b2, c2⟩ := h2
  refine ⟨Nat.le_trans a1 a2, ?_, fun hw => c2 (c1 hw)⟩
  intro id hid
  rw [b2 id (Nat.lt_of_lt_of_le hid a1), b1 id hid]

theorem storeEvolves_alloc (s : WStore) (w : WallpaperT) : StoreEvolves s (s.alloc w).2 := by
  refine ⟨?_, ?_, WStore.alloc_WF s w⟩
  · show s.nextId ≤ s.nextId + 1
    omega
  · intro id hid
    exact WStore.find_alloc_lt s w id hid

theorem storeEvolves_allocObj (s : WStore) : StoreEvolves s (s.allocObj).2 :=
  ⟨Nat.le_refl _, fun _ _ => rfl, id⟩

theorem WStore.find_some_lt_nextId (s : WStore) (id : Nat) (wp : WallpaperT)
    (hwf : s.WF) (h : s.find id = some wp) : id < s.nextId := by
  rcases s with ⟨ws, ni, no⟩
  simp only [WStore.find] at h
  cases hf : ws.find? (fun q => q.1 == id) with
  | none => rw [hf] at h; simp at h
  | some q =>
    have hm := List.mem_of_find?_eq_some hf
    have hk : q.1 = id := by simpa using List.find?_some hf
    have hlt := hwf q hm
    simp only [WStore.nextId] at hlt ⊢
    omega

theorem loadStepShm_storeEvolves (env : EnvT) (shmSizeV : Nat) (rs : RunSt)
    (f : WallpaperFileT) :
    StoreEvolves rs.store (loadStepShm env shmSizeV rs f).store := by
  simp only [loadStepShm]
  repeat' split
  all_goals
    first
      | exact storeEvolves_refl _
      | exact storeEvolves_trans (storeEvolves_allocObj _) (storeEvolves_alloc _ _)

theorem loadStep_storeEvolves (env : EnvT) (layers0 : List BackgroundLayerT)
    (wv hv : Nat) (t : TransformT) (shmSizeV : Nat) (rs : RunSt) (f : WallpaperFileT) :
    StoreEvolves rs.store (loadStep env layers0 wv hv t shmSizeV rs f).store := by
  simp only [loadStep]
  repeat' split
  all_goals
    first
      | exact storeEvolves_refl _
      | exact storeEvolves_trans (storeEvolves_allocObj _) (storeEvolves_alloc _ _)
      | exact loadStepShm_storeEvolves env shmSizeV
          ⟨rs.store, rs.acc, none, rs.fdsNeedFlush,
            rs.trace ++ [EventT.decode f.canonPath f.canonModified true]⟩ f
      | exact loadStepShm_storeEvolves env shmSizeV rs f

theorem loadLoop_storeEvolves (env : EnvT) (layers0 : List BackgroundLayerT)
    (wv hv : Nat) (t : TransformT) (shmSizeV : Nat) :
    ∀ (fs : List WallpaperFileT) (rs : RunSt),
      StoreEvolves rs.store (loadLoop env layers0 wv hv t shmSizeV rs fs).store := by
  intro fs
  induction fs with
  | nil => intro rs; exact storeEvolves_refl _
  | cons f fs ih =>
    intro rs
    exact storeEvolves_trans (loadStep_storeEvolves env layers0 wv hv t shmSizeV rs f)
      (ih _)

/-! ## Cache match extraction lemmas -/

theorem wallpaperMatches_true (s : WStore) (path : String) (mtime : Nat)
    (up : Option GpuUploaderT) (wid : Nat)
    (h : wallpaperMatches s path mtime up wid = true) :
    ∃ wp, s.find wid = some wp ∧ wp.canonModified = mtime ∧ wp.canonPath = path
      ∧ wp.memory.gpuUploaderEq up = true := by
  unfold wallpaperMatches at h
  cases hf : s.find wid with
  | none => rw [hf] at h; simp at h
  | some wp =>
    rw [hf] at h
    simp only [Bool.and_eq_true, beq_iff_eq] at h
    exact ⟨wp, rfl, h.1.1, h.1.2, h.2⟩

theorem findEqualOutputWallpaper_some (s : WStore) (acc : List WorkspaceBackgroundT)
    (path : String) (mtime : Nat) (up : Option GpuUploaderT) (wid : Nat)
    (h : findEqualOutputWallpaper s acc path mtime up = some wid) :
    wallpaperMatches s path mtime up wid = true ∧ ∃ e ∈ acc, e.wallpaper = wid := by
  unfold findEqualOutputWallpaper at h
  cases hf : acc.find? (fun e => wallpaperMatches s path mtime up e.wallpaper) with
  | none => rw [hf] at h; simp at h
  | some e =>
    rw [hf] at h
    have hmm : wallpaperMatches s path mtime up e.wallpaper = true := by
      simpa using List.find?_some hf
    have hmem := List.mem_of_find?_eq_some hf
    obtain rfl : e.wallpaper = wid := by simpa using h
    exact ⟨hmm, e, hmem, rfl⟩

theorem findEqualWallpaper_some (s : WStore) (layers : List BackgroundLayerT)
    (wv hv : Nat) (t : TransformT) (path : String) (mtime : Nat)
    (up : Option GpuUploaderT) (wid : Nat)
    (h : findEqualWallpaper s layers wv hv t path mtime up = some wid) :
    wallpaperMatches s path mtime up wid = true := by
  unfold findEqualWallpaper at h
  obtain ⟨bl, hbl, hf⟩ := List.exists_of_findSome?_eq_some h
  by_cases hg : (bl.width == wv && bl.height == hv && decide (bl.transform = t)) = true
  · rw [if_pos hg] at hf
    cases hff : bl.workspaceBackgrounds.find?
        (fun e => wallpaperMatches s path mtime up e.wallpaper) with
    | none => rw [hff] at hf; simp at hf
    | some e =>
      rw [hff] at hf
      have hmm : wallpaperMatches s path mtime up e.wallpaper = true := by
        simpa using List.find?_some hff
      obtain rfl : e.wallpaper = wid := by simpa using hf
      exact hmm
  · rw [if_neg hg] at hf
    simp at hf

theorem gpuUploaderEq_none_isShm (mem : MemoryT)
    (h : mem.gpuUploaderEq none = true) : mem.isShm = true := by
  cases mem with
  | wlShm sz => rfl
  | dmabuf dev m pr => simp [MemoryT.gpuUploaderEq] at h

/-! ## List set lemmas -/

theorem list_getD_set_self {α : Type} (l : List α) (i : Nat) (a d : α)
    (h : i < l.length) : (l.set i a).getD i d = a := by
  induction l generalizing i with
  | nil => simp at h
  | cons x xs ih =>
    cases i with
    | zero => rfl
    | succ n => simpa using ih n (by simpa using h)

theorem list_getD_set_ne {α : Type} (l : List α) (i j : Nat) (a d : α)
    (h : j ≠ i) : (l.set i a).getD j d = l.getD j d := by
  induction l generalizing i j with
  | nil => simp
  | cons x xs ih =>
    cases i with
    | zero =>
      cases j with
      | zero => exact absurd rfl h
      | succ m => simp [List.set]
    | succ n =>
      cases j with
      | zero => simp [List.set]
      | succ m => simpa [List.set] using ih n m (by omega)

/-! ## Host-memory reload lemmas -/

theorem loadStepShm_shm_inv (env : EnvT) (shmSizeV : Nat) (rs : RunSt)
    (f : WallpaperFileT) (hup : rs.uploader = none) (hwf : rs.store.WF)
    (hshm : AllShmEntries rs.store rs.acc) :
    (loadStepShm env shmSizeV rs f).uploader = none
    ∧ (loadStepShm env shmSizeV rs f).store.WF
    ∧ AllShmEntries (loadStepShm env shmSizeV rs f).store
        (loadStepShm env shmSizeV rs f).acc := by
  simp only [loadStepShm]
  repeat' split
  all_goals
    first
      | exact ⟨hup, hwf, hshm⟩
      | (refine ⟨hup, WStore.alloc_WF _ _ hwf, ?_⟩
         intro e he
         rcases List.mem_append.mp he with he | he
         · obtain ⟨wp, hfind, hs2⟩ := hshm e he
           exact ⟨wp, WStore.find_alloc_preserve _ _ _ _ hfind, hs2⟩
         · have he2 := List.mem_singleton.mp he
           subst he2
           exact ⟨_, WStore.find_alloc_self _ _ hwf, rfl⟩)

theorem loadStep_shm_inv (env : EnvT) (layers0 : List BackgroundLayerT)
    (wv hv : Nat) (t : TransformT) (shmSizeV : Nat) (rs : RunSt) (f : WallpaperFileT)
    (hup : rs.uploader = none) (hwf : rs.store.WF)
    (hshm : AllShmEntries rs.store rs.acc) :
    (loadStep env layers0 wv hv t shmSizeV rs f).uploader = none
    ∧ (loadStep env layers0 wv hv t shmSizeV rs f).store.WF
    ∧ AllShmEntries (loadStep env layers0 wv hv t shmSizeV rs f).store
        (loadStep env layers0 wv hv t shmSizeV rs f).acc := by
  cases h1 : findEqualOutputWallpaper rs.store rs.acc f.canonPath f.canonModified
      rs.uploader with
  | some wid =>
    simp only [loadStep, h1]
    refine ⟨hup, hwf, ?_⟩
    intro e he
    rcases List.mem_append.mp he with he | he
    · exact hshm e he
    · have he2 := List.mem_singleton.mp he
      subst he2
      obtain ⟨hm, -⟩ := findEqualOutputWallpaper_some _ _ _ _ _ _ h1
      obtain ⟨wp, hfind, -, -, hgpu⟩ := wallpaperMatches_true _ _ _ _ _ hm
      rw [hup] at hgpu
      exact ⟨wp, hfind, gpuUploaderEq_none_isShm _ hgpu⟩
  | none =>
    cases h2 : findEqualWallpaper rs.store layers0 wv hv t f.canonPath f.canonModified
        rs.uploader with
    | some wid =>
      simp only [loadStep, h1, h2]
      refine ⟨hup, hwf, ?_⟩
      intro e he
      rcases List.mem_append.mp he with he | he
      · exact hshm e he
      · have he2 := List.mem_singleton.mp he
        subst he2
        have hm := findEqualWallpaper_some _ _ _ _ _ _ _ _ _ h2
        obtain ⟨wp, hfind, -, -, hgpu⟩ := wallpaperMatches_true _ _ _ _ _ hm
        rw [hup] at hgpu
        exact ⟨wp, hfind, gpuUploaderEq_none_isShm _ hgpu⟩
    | none =>
      rw [hup] at h1 h2
      simp only [loadStep, hup, h1, h2]
      exact loadStepShm_shm_inv env shmSizeV rs f hup hwf hshm

theorem loadLoop_shm_inv (env : EnvT) (layers0 : List BackgroundLayerT)
    (wv hv : Nat) (t : TransformT) (shmSizeV : Nat) :
    ∀ (fs : List WallpaperFileT) (rs : RunSt),
      rs.uploader = none → rs.store.WF → AllShmEntries rs.store rs.acc →
      (loadLoop env layers0 wv hv t shmSizeV rs fs).uploader = none
      ∧ (loadLoop env layers0 wv hv t shmSizeV rs fs).store.WF
      ∧ AllShmEntries (loadLoop env layers0 wv hv t shmSizeV rs fs).store
          (loadLoop env layers0 wv hv t shmSizeV rs fs).acc := by
  intro fs
  induction fs with
  | nil => intro rs h1 h2 h3; exact ⟨h1, h2, h3⟩
  | cons f fs ih =>
    intro rs h1 h2 h3
    obtain ⟨g1, g2, g3⟩ := loadStep_shm_inv env layers0 wv hv t shmSizeV rs f h1 h2 h3
    exact ih _ g1 g2 g3

theorem loadWallpapers_shape (st : SysStateT) (env : EnvT) (i : Nat)
    (up : Option GpuUploaderT) :
    (loadWallpapers st env i up).1
      = ⟨(loadLoop env st.layers (st.layers.getD i default).width
            (st.layers.getD i default).height (st.layers.getD i default).transform
            (shmStride env.shmFormat (st.layers.getD i default).width
              * (st.layers.getD i default).height)
            ⟨st.store, [], up, 0, [.flush]⟩ env.files).store,
         st.layers.set i
           { st.layers.getD i default with
             workspaceBackgrounds :=
               (loadLoop env st.layers (st.layers.getD i default).width
                 (st.layers.getD i default).height (st.layers.getD i default).transform
                 (shmStride env.shmFormat (st.layers.getD i default).width
                   * (st.layers.getD i default).height)
                 ⟨st.store, [], up, 0, [.flush]⟩ env.files).acc }⟩ := by
  simp only [loadWallpapers]
  split <;> rfl

theorem handleDmabufFeedback_fail (st : SysStateT) (env : EnvT) (i : Nat) (fb : FeedbackT)
    (hfail : fb.tranches = []
      ∨ feedbackSelectedModifiers fb = none
      ∨ feedbackSelectedModifiers fb = some []
      ∨ (∃ mods, feedbackSelectedModifiers fb = some mods ∧ mods ≠ []
          ∧ feedbackNoChange st.store (st.layers.getD i default) fb.mainDevice mods
              = false
          ∧ env.mkUploader (some fb.mainDevice) (st.layers.getD i default).width
              (st.layers.getD i default).height mods = none)) :
    handleDmabufFeedback st env i fb = none := by
  unfold handleDmabufFeedback
  rcases hfail with h | h | h | ⟨mods, h1, h2, h3, h4⟩
  · simp [h]
  · by_cases ht : fb.tranches.isEmpty <;> simp [ht, h]
  · by_cases ht : fb.tranches.isEmpty <;> simp [ht, h]
  · by_cases ht : fb.tranches.isEmpty
    · simp [ht]
    · simp only [List.getD_eq_getElem?_getD] at h3 h4
      simp [ht, h1, h3, h4, List.isEmpty_iff, h2]

theorem loadWallpapers_none_spec (st : SysStateT) (env : EnvT) (i : Nat)
    (hwf : st.store.WF) (hi : i < st.layers.length) :
    ((loadWallpapers st env i none).1.layers.getD i default).dmabufFeedback
        = (st.layers.getD i default).dmabufFeedback
    ∧ (∀ j, j ≠ i → (loadWallpapers st env i none).1.layers.getD j default
        = st.layers.getD j default)
    ∧ StoreEvolves st.store (loadWallpapers st env i none).1.store
    ∧ AllShmEntries (loadWallpapers st env i none).1.store
        ((loadWallpapers st env i none).1.layers.getD i default).workspaceBackgrounds := by
  rw [loadWallpapers_shape st env i none]
  have hsetself := list_getD_set_self st.layers i
    { st.layers.getD i default with
      workspaceBackgrounds :=
        (loadLoop env st.layers (st.layers.getD i default).width
          (st.layers.getD i default).height (st.layers.getD i default).transform
          (shmStride env.shmFormat (st.layers.getD i default).width
            * (st.layers.getD i default).height)
          ⟨st.store, [], none, 0, [.flush]⟩ env.files).acc }
    default hi
  have hshm0 : AllShmEntries st.store ([] : List WorkspaceBackgroundT) := by
    intro e he
    cases he
  have hloop := loadLoop_shm_inv env st.layers (st.layers.getD i default).width
    (st.layers.getD i default).height (st.layers.getD i default).transform
    (shmStride env.shmFormat (st.layers.getD i default).width
      * (st.layers.getD i default).height)
    env.files ⟨st.store, [], none, 0, [.flush]⟩ rfl hwf hshm0
  refine ⟨?_, ?_, ?_, ?_⟩
  · show ((st.layers.set i _).getD i default).dmabufFeedback = _
    rw [hsetself]
  · intro j hj
    show (st.layers.set i _).getD j default = _
    exact list_getD_set_ne st.layers i j _ default hj
  · exact loadLoop_storeEvolves env st.layers (st.layers.getD i default).width
      (st.layers.getD i default).height (st.layers.getD i default).transform
      (shmStride env.shmFormat (st.layers.getD i default).width
        * (st.layers.getD i default).height)
      env.files ⟨st.store, [], none, 0, [.flush]⟩
  · show AllShmEntries _ ((st.layers.set i _).getD i default).workspaceBackgrounds
    rw [hsetself]
    exact hloop.2.2

/-! ## C3: feedback failure falls back to host memory for one output -/

/-- C3: on any failure while handling DMA-BUF feedback for output i (zero
tranches, no tranche whose target device equals the main device, empty
modifier set for DRM_FORMAT_XRGB8888, or GPU uploader creation failure),
the handler destroys that output's feedback object, clears its bindings
and reloads all of its wallpapers through the wl_shm host-memory path,
while every other output's layer and every previously stored wallpaper
are left unchanged. -/
theorem c3_feedback_failure_fallback (st : SysStateT) (env : EnvT) (i : Nat)
    (fb : FeedbackT) (hwf : st.store.WF) (hi : i < st.layers.length)
    (hfail : fb.tranches = []
      ∨ feedbackSelectedModifiers fb = none
      ∨ feedbackSelectedModifiers fb = some []
      ∨ (∃ mods, feedbackSelectedModifiers fb = some mods ∧ mods ≠ []
          ∧ feedbackNoChange st.store (st.layers.getD i default) fb.mainDevice mods
              = false
          ∧ env.mkUploader (some fb.mainDevice) (st.layers.getD i default).width
              (st.layers.getD i default).height mods = none)) :
    ((dmabufFeedbackHandler st env i fb).1.layers.getD i default).dmabufFeedback = none
    ∧ (∀ j, j ≠ i → (dmabufFeedbackHandler st env i fb).1.layers.getD j default
        = st.layers.getD j default)
    ∧ (∀ id wp, st.store.find id = some wp →
        (dmabufFeedbackHandler st env i fb).1.store.find id = some wp)
    ∧ AllShmEntries (dmabufFeedbackHandler st env i fb).1.store
        ((dmabufFeedbackHandler st env i fb).1.layers.getD i default).workspaceBackgrounds
    := by
  have hred : dmabufFeedbackHandler st env i fb = fallbackShmLoadWallpapers st env i := by
    unfold dmabufFeedbackHandler
    rw [handleDmabufFeedback_fail st env i fb hfail]
  rw [hred]
  have hL2 : ∃ L2 : BackgroundLayerT,
      L2 = { st.layers.getD i default with dmabufFeedback := none, workspaceBackgrounds := [] } :=
    ⟨_, rfl⟩
  obtain ⟨L2, hL2⟩ := hL2
  have hfb : fallbackShmLoadWallpapers st env i
      = loadWallpapers (⟨st.store, st.layers.set i L2⟩ : SysStateT) env i none := by
    rw [hL2]
    rfl
  rw [hfb]
  have hi1 : i < (st.layers.set i L2).length := by
    simpa using hi
  have hspec := loadWallpapers_none_spec
    (⟨st.store, st.layers.set i L2⟩ : SysStateT) env i hwf hi1
  obtain ⟨hs1, hs2, hs3, hs4⟩ := hspec
  have hgetself : (st.layers.set i L2).getD i default = L2 :=
    list_getD_set_self st.layers i _ default hi
  refine ⟨?_, ?_, ?_, hs4⟩
  · rw [hs1]
    show ((st.layers.set i L2).getD i default).dmabufFeedback = none
    rw [hgetself, hL2]
  · intro j hj
    rw [hs2 j hj]
    show (st.layers.set i L2).getD j default = _
    exact list_getD_set_ne st.layers i j _ default hj
  · intro id wp hfind
    have hlt := WStore.find_some_lt_nextId st.store id wp hwf hfind
    have := hs3.2.1 id hlt
    rw [this]
    exact hfind

theorem c3_feedback_failure_fallback_witness :
    ((⟨5, [], []⟩ : FeedbackT).tranches = [] ∧ c3State.store.WF ∧
      0 < c3State.layers.length) ∧
    (((dmabufFeedbackHandler c3State c3Env 0 ⟨5, [], []⟩).1.layers.getD 0
        default).dmabufFeedback = none
    ∧ (∀ j, j ≠ 0 → (dmabufFeedbackHandler c3State c3Env 0 ⟨5, [], []⟩).1.layers.getD j
        default = c3State.layers.getD j default)
    ∧ (∀ id wp, c3State.store.find id = some wp →
        (dmabufFeedbackHandler c3State c3Env 0 ⟨5, [], []⟩).1.store.find id = some wp)
    ∧ AllShmEntries (dmabufFeedbackHandler c3State c3Env 0 ⟨5, [], []⟩).1.store
        ((dmabufFeedbackHandler c3State c3Env 0 ⟨5, [], []⟩).1.layers.getD 0
          default).workspaceBackgrounds) :=
  ⟨⟨rfl, fun q hq => absurd hq (List.not_mem_nil q), by decide⟩,
   c3_feedback_failure_fallback c3State c3Env 0 ⟨5, [], []⟩
     (fun q hq => absurd hq (List.not_mem_nil q)) (by decide) (Or.inl rfl)⟩

/-! ## Congruence and key lemmas for the dedup cache -/

